import Mathlib

/-!
# Verification of the openmc nuclide reference-data module

This file is a shallow embedding of `openmc/data/data.py`: nuclide name
encoding/decoding (`gnds_name` / `zam`), the natural-abundance table and
`isotopes`, the atomic-mass cache and `atomic_weight`, the half-life lookup
and `decay_constant`, and the IAPWS-IF97 region-1 `water_density` routine.

Modelling conventions:
* Python strings are modelled as `List Char`; the ASCII character classes of
  the regexes (`[A-Zn]`, `[a-z]`, `\d`) are modelled on `Char.toNat`.
* Python floats are modelled as exact rationals `ℚ`; the two transcendental
  primitives used by `water_density` (`math.sqrt` and `** 0.25`) are passed
  in as oracle parameters, so every theorem about it holds for any
  implementation of those primitives.
* The two external data files (the AME2020 mass table and the half-life
  dataset) are not part of the repository source; the post-parse content of
  each is a parameter of the corresponding definitions, and claims about
  them carry hypotheses describing the file content they rely on.
* Python dicts are modelled as association lists; insertion conses on the
  front and lookup takes the first (i.e. most recent) binding.
* A Python `raise ValueError` is modelled as `Except.error` with a dedicated
  error constructor; `warnings.warn` calls are collected into a list of
  warning values returned alongside the result.
-/

namespace OpenMCData

/-! ## Character classes (from the regexes in data.py) -/

/-- The regex class `[a-z]` (ASCII lowercase). -/
def isLowerC (c : Char) : Bool := 97 ≤ c.toNat && c.toNat ≤ 122

/-- The regex class `[A-Z]` (ASCII uppercase). -/
def isUpperC (c : Char) : Bool := 65 ≤ c.toNat && c.toNat ≤ 90

/-- The regex class `\d` (ASCII digits). -/
def isDigitC (c : Char) : Bool := 48 ≤ c.toNat && c.toNat ≤ 57

/-- The regex class `[A-Zn]` opening `_GNDS_NAME_RE`. -/
def isSymStartC (c : Char) : Bool := isUpperC c || c.toNat == 110

/-- A letter (either case); used to state the spec's `Letter` grammar class. -/
def isAlphaC (c : Char) : Bool := isUpperC c || isLowerC c

theorem not_isLowerC_of_isDigitC {c : Char} (h : isDigitC c = true) :
    isLowerC c = false := by
  rw [← Bool.not_eq_true]
  intro hl
  simp only [isDigitC, isLowerC, Bool.and_eq_true, decide_eq_true_eq] at h hl
  omega

theorem not_isDigitC_of_isLowerC {c : Char} (h : isLowerC c = true) :
    isDigitC c = false := by
  rw [← Bool.not_eq_true]
  intro hd
  simp only [isDigitC, isLowerC, Bool.and_eq_true, decide_eq_true_eq] at h hd
  omega

/-! ## Decimal digits: Python `int(...)` and `f-string` formatting of naturals -/

/-- Value of an ASCII digit character. -/
def digitVal (c : Char) : ℕ := c.toNat - 48

/-- Python `int(s)` on a string of decimal digits. -/
def parseDigits (l : List Char) : ℕ := l.foldl (fun a c => 10 * a + digitVal c) 0

/-- The decimal digit characters. -/
def digitChar (d : ℕ) : Char :=
  ['0', '1', '2', '3', '4', '5', '6', '7', '8', '9'].getD d '0'

/-- Python `f-string` decimal formatting of a natural number. -/
def natDigits (n : ℕ) : List Char :=
  if h : n < 10 then [digitChar n]
  else natDigits (n / 10) ++ [digitChar (n % 10)]
  decreasing_by exact Nat.div_lt_self (by omega) (by omega)

theorem digitChar_isDigit {d : ℕ} (h : d < 10) : isDigitC (digitChar d) = true := by
  interval_cases d <;> decide

theorem digitVal_digitChar {d : ℕ} (h : d < 10) : digitVal (digitChar d) = d := by
  interval_cases d <;> decide

theorem natDigits_ne_nil (n : ℕ) : natDigits n ≠ [] := by
  rw [natDigits]
  split <;> simp

theorem natDigits_all_digit (n : ℕ) : (natDigits n).all isDigitC = true := by
  induction n using Nat.strong_induction_on with
  | _ n ih =>
    rw [natDigits]
    split
    · next h => simp [digitChar_isDigit h]
    · next h =>
      have h1 := ih (n / 10) (Nat.div_lt_self (by omega) (by omega))
      have h2 := digitChar_isDigit (Nat.mod_lt n (by omega))
      simp [List.all_append, h1, h2]

theorem parseDigits_append (l₁ l₂ : List Char) :
    parseDigits (l₁ ++ l₂) = l₂.foldl (fun a c => 10 * a + digitVal c) (parseDigits l₁) := by
  simp [parseDigits, List.foldl_append]

theorem parseDigits_natDigits (n : ℕ) : parseDigits (natDigits n) = n := by
  induction n using Nat.strong_induction_on with
  | _ n ih =>
    rw [natDigits]
    split
    · next h => simp [parseDigits, digitVal_digitChar h]
    · next h =>
      rw [parseDigits_append]
      simp only [List.foldl_cons, List.foldl_nil]
      rw [ih (n / 10) (Nat.div_lt_self (by omega) (by omega)),
        digitVal_digitChar (Nat.mod_lt n (by omega))]
      omega

/-! ## ElementRegistry: `ATOMIC_SYMBOL` / `ATOMIC_NUMBER` -/

/-- The `ATOMIC_SYMBOL` dict of data.py: atomic number to element symbol. -/
def ATOMIC_SYMBOL : List (ℕ × String) :=
  [(0, "n"), (1, "H"), (2, "He"), (3, "Li"), (4, "Be"), (5, "B"), (6, "C"),
   (7, "N"), (8, "O"), (9, "F"), (10, "Ne"), (11, "Na"), (12, "Mg"), (13, "Al"),
   (14, "Si"), (15, "P"), (16, "S"), (17, "Cl"), (18, "Ar"), (19, "K"),
   (20, "Ca"), (21, "Sc"), (22, "Ti"), (23, "V"), (24, "Cr"), (25, "Mn"),
   (26, "Fe"), (27, "Co"), (28, "Ni"), (29, "Cu"), (30, "Zn"), (31, "Ga"),
   (32, "Ge"), (33, "As"), (34, "Se"), (35, "Br"), (36, "Kr"), (37, "Rb"),
   (38, "Sr"), (39, "Y"), (40, "Zr"), (41, "Nb"), (42, "Mo"), (43, "Tc"),
   (44, "Ru"), (45, "Rh"), (46, "Pd"), (47, "Ag"), (48, "Cd"), (49, "In"),
   (50, "Sn"), (51, "Sb"), (52, "Te"), (53, "I"), (54, "Xe"), (55, "Cs"),
   (56, "Ba"), (57, "La"), (58, "Ce"), (59, "Pr"), (60, "Nd"), (61, "Pm"),
   (62, "Sm"), (63, "Eu"), (64, "Gd"), (65, "Tb"), (66, "Dy"), (67, "Ho"),
   (68, "Er"), (69, "Tm"), (70, "Yb"), (71, "Lu"), (72, "Hf"), (73, "Ta"),
   (74, "W"), (75, "Re"), (76, "Os"), (77, "Ir"), (78, "Pt"), (79, "Au"),
   (80, "Hg"), (81, "Tl"), (82, "Pb"), (83, "Bi"), (84, "Po"), (85, "At"),
   (86, "Rn"), (87, "Fr"), (88, "Ra"), (89, "Ac"), (90, "Th"), (91, "Pa"),
   (92, "U"), (93, "Np"), (94, "Pu"), (95, "Am"), (96, "Cm"), (97, "Bk"),
   (98, "Cf"), (99, "Es"), (100, "Fm"), (101, "Md"), (102, "No"),
   (103, "Lr"), (104, "Rf"), (105, "Db"), (106, "Sg"), (107, "Bh"),
   (108, "Hs"), (109, "Mt"), (110, "Ds"), (111, "Rg"), (112, "Cn"),
   (113, "Nh"), (114, "Fl"), (115, "Mc"), (116, "Lv"), (117, "Ts"),
   (118, "Og")]

/-- `ATOMIC_SYMBOL[Z]`, as characters (`None` models a Python `KeyError`). -/
def atomicSymbolOf (Z : ℕ) : Option (List Char) :=
  (ATOMIC_SYMBOL.find? (fun kv => kv.1 == Z)).map (fun kv => kv.2.toList)

/-- Lookup in `ATOMIC_NUMBER = {value: key for key, value in ATOMIC_SYMBOL.items()}`.
The symbols in `ATOMIC_SYMBOL` are pairwise distinct (`atomicSymbol_injective`
below), so first-match lookup agrees with the Python dict built with
last-write-wins overwriting. -/
def atomicNumberOf (symbol : List Char) : Option ℕ :=
  (ATOMIC_SYMBOL.find? (fun kv => kv.2.toList == symbol)).map (fun kv => kv.1)

theorem atomicSymbol_injective :
    ATOMIC_SYMBOL.Pairwise (fun a b => a.2 ≠ b.2) := by decide

/-! ## NuclideNameCodec: `gnds_name` and `zam` -/

/-- `gnds_name(Z, A, m)` of data.py (`None` models a `KeyError` on `Z`). -/
def gnds_name (Z A : ℕ) (m : ℕ := 0) : Option (List Char) :=
  (atomicSymbolOf Z).map (fun sym =>
    if m > 0 then sym ++ natDigits A ++ ('_' :: 'm' :: natDigits m)
    else sym ++ natDigits A)

/-- `_GNDS_NAME_RE.match(name)`: the prefix-matching semantics of
`re.match(r'([A-Zn][a-z]*)(\d+)((?:_[em]\d+)?)', name)`, returning the three
groups (symbol, digit run, optional metastable state).  The quantifiers are
greedy and, because the character classes of adjacent parts are disjoint,
greedy scanning without backtracking is exactly the regex behaviour. -/
def gndsState (r2 : List Char) : List Char :=
  match r2 with
  | '_' :: k :: r3 =>
    if k == 'e' || k == 'm' then
      let ms := r3.takeWhile isDigitC
      if ms.isEmpty then [] else '_' :: k :: ms
    else []
  | _ => []

def gndsMatch (s : List Char) : Option (List Char × List Char × List Char) :=
  match s with
  | [] => none
  | c :: rest =>
    if isSymStartC c then
      let low := rest.takeWhile isLowerC
      let r1 := rest.dropWhile isLowerC
      let ds := r1.takeWhile isDigitC
      if ds.isEmpty then none
      else some (c :: low, ds, gndsState (r1.dropWhile isDigitC))
    else none

/-- The error taxonomy of the module (each `ValueError` site of data.py gets
its own constructor, carrying the offending input). -/
inductive DataError where
  | invalidNuclideName (name : List Char)
  | unknownElement (element : List Char)
  | unknownIsotope (isotope : List Char)
  | noNaturalIsotopes (element : List Char)
  deriving DecidableEq, Repr

instance {ε α : Type} [DecidableEq ε] [DecidableEq α] : DecidableEq (Except ε α) :=
  fun a b =>
  match a, b with
  | .ok x, .ok y =>
    if h : x = y then isTrue (congrArg Except.ok h)
    else isFalse (fun he => h (Except.ok.inj he))
  | .error x, .error y =>
    if h : x = y then isTrue (congrArg Except.error h)
    else isFalse (fun he => h (Except.error.inj he))
  | .ok _, .error _ => isFalse (fun he => Except.noConfusion he)
  | .error _, .ok _ => isFalse (fun he => Except.noConfusion he)

/-- `zam(name)` of data.py. -/
def zam (name : List Char) : Except DataError (ℕ × ℕ × ℕ) :=
  match gndsMatch name with
  | none => .error (.invalidNuclideName name)
  | some (symbol, A, state) =>
    match atomicNumberOf symbol with
    | none => .error (.unknownElement symbol)
    | some Z =>
      let metastable := if state.isEmpty then 0 else parseDigits (state.drop 2)
      .ok (Z, parseDigits A, metastable)

/-! ## Greedy-scan lemmas for the regex semantics -/

theorem takeWhile_all {α} {p : α → Bool} {l : List α} (h : ∀ a ∈ l, p a = true) :
    l.takeWhile p = l := by
  induction l with
  | nil => rfl
  | cons x xs ih =>
    rw [List.takeWhile_cons_of_pos (h x (List.mem_cons_self x xs))]
    rw [ih (fun a ha => h a (List.mem_cons_of_mem x ha))]

theorem dropWhile_all {α} {p : α → Bool} {l : List α} (h : ∀ a ∈ l, p a = true) :
    l.dropWhile p = [] := by
  induction l with
  | nil => rfl
  | cons x xs ih =>
    rw [List.dropWhile_cons_of_pos (h x (List.mem_cons_self x xs))]
    exact ih (fun a ha => h a (List.mem_cons_of_mem x ha))

theorem takeWhile_stop {α} {p : α → Bool} {l r : List α} {x : α}
    (h : ∀ a ∈ l, p a = true) (hx : p x = false) :
    (l ++ x :: r).takeWhile p = l := by
  induction l with
  | nil =>
    rw [List.nil_append]
    exact List.takeWhile_cons_of_neg (by simp [hx])
  | cons y ys ih =>
    rw [List.cons_append, List.takeWhile_cons_of_pos (h y (List.mem_cons_self y ys))]
    rw [ih (fun a ha => h a (List.mem_cons_of_mem y ha))]

theorem dropWhile_stop {α} {p : α → Bool} {l r : List α} {x : α}
    (h : ∀ a ∈ l, p a = true) (hx : p x = false) :
    (l ++ x :: r).dropWhile p = x :: r := by
  induction l with
  | nil =>
    rw [List.nil_append]
    exact List.dropWhile_cons_of_neg (by simp [hx])
  | cons y ys ih =>
    rw [List.cons_append, List.dropWhile_cons_of_pos (h y (List.mem_cons_self y ys))]
    exact ih (fun a ha => h a (List.mem_cons_of_mem y ha))

/-- `_GNDS_NAME_RE` on a well-shaped input: a symbol-start character, a run of
lowercase letters, a nonempty run of digits, and either nothing or a complete
`_e`/`_m` suffix; the regex groups recover exactly those segments. -/
theorem gndsMatch_shape {c : Char} {low ds suf : List Char}
    (hc : isSymStartC c = true) (hlow : ∀ a ∈ low, isLowerC a = true)
    (hds : ∀ a ∈ ds, isDigitC a = true) (hne : ds ≠ [])
    (hsuf : suf = [] ∨ ∃ k ms, suf = '_' :: k :: ms ∧ (k = 'e' ∨ k = 'm') ∧
      ms ≠ [] ∧ ∀ a ∈ ms, isDigitC a = true) :
    gndsMatch (c :: (low ++ (ds ++ suf))) = some (c :: low, ds, suf) := by
  obtain ⟨d, ds', rfl⟩ := List.exists_cons_of_ne_nil hne
  have hd : isDigitC d = true := hds d (List.mem_cons_self d ds')
  have hld : isLowerC d = false := not_isLowerC_of_isDigitC hd
  rcases hsuf with rfl | ⟨k, ms, rfl, hk, hmsne, hms⟩
  · rw [List.append_nil]
    have hTW : (low ++ d :: ds').takeWhile isLowerC = low := takeWhile_stop hlow hld
    have hDW : (low ++ d :: ds').dropWhile isLowerC = d :: ds' := dropWhile_stop hlow hld
    have hTW2 : (d :: ds').takeWhile isDigitC = d :: ds' := takeWhile_all hds
    have hDW2 : (d :: ds').dropWhile isDigitC = [] := dropWhile_all hds
    simp only [gndsMatch, hc, if_true, hTW, hDW, hTW2, hDW2, gndsState,
      List.isEmpty_cons, Bool.false_eq_true, if_false]
  · have hTW : (low ++ (d :: ds' ++ '_' :: k :: ms)).takeWhile isLowerC = low := by
      rw [List.cons_append]; exact takeWhile_stop hlow hld
    have hDW : (low ++ (d :: ds' ++ '_' :: k :: ms)).dropWhile isLowerC
        = d :: ds' ++ '_' :: k :: ms := by
      rw [List.cons_append]; exact dropWhile_stop hlow hld
    have hu : isDigitC '_' = false := by decide
    have hTW2 : ((d :: ds') ++ ('_' :: k :: ms)).takeWhile isDigitC = d :: ds' :=
      takeWhile_stop hds hu
    have hDW2 : ((d :: ds') ++ ('_' :: k :: ms)).dropWhile isDigitC = '_' :: k :: ms :=
      dropWhile_stop hds hu
    have hState : gndsState ('_' :: k :: ms) = '_' :: k :: ms := by
      have hkb : (k == 'e' || k == 'm') = true := by
        rcases hk with rfl | rfl <;> decide
      simp only [gndsState, hkb, if_true, takeWhile_all hms]
      simp [List.isEmpty_eq_true, hmsne]
    simp only [gndsMatch, hc, if_true, hTW, hDW, hTW2, hDW2, hState,
      List.isEmpty_cons, Bool.false_eq_true, if_false]

/-- Decidable check that `ATOMIC_SYMBOL[z]` exists, has the shape
`[A-Zn][a-z]*`, and inverts through `ATOMIC_NUMBER` back to `z`. -/
def symbolShapeOk (z : ℕ) : Bool :=
  match atomicSymbolOf z with
  | some (c :: low) =>
    isSymStartC c && low.all isLowerC && (atomicNumberOf (c :: low) == some z)
  | _ => false

theorem symbolShapeOk_all : (List.range 119).all symbolShapeOk = true := by decide

/-- **C1** — For every valid triple (Z, A, m) — Z a key of the atomic-number
table (0 through 118), A ≥ 1, m ≥ 0 — decoding the encoded name returns the
original triple: `zam (gnds_name Z A m) = (Z, A, m)`. -/
theorem zam_gnds_name_roundtrip (Z A m : ℕ) (hZ : Z ≤ 118) (hA : 1 ≤ A) :
    ∃ nm, gnds_name Z A m = some nm ∧ zam nm = .ok (Z, A, m) := by
  have hz : symbolShapeOk Z = true := by
    have h := symbolShapeOk_all
    rw [List.all_eq_true] at h
    exact h Z (List.mem_range.mpr (by omega))
  unfold symbolShapeOk at hz
  cases hsym : atomicSymbolOf Z with
  | none => rw [hsym] at hz; exact absurd hz (by simp)
  | some sym =>
    rw [hsym] at hz
    cases sym with
    | nil => simp at hz
    | cons c low =>
      simp only [Bool.and_eq_true, beq_iff_eq] at hz
      obtain ⟨⟨hc, hlow⟩, hnum⟩ := hz
      rw [List.all_eq_true] at hlow
      have hdsA : ∀ a ∈ natDigits A, isDigitC a = true := by
        have h := natDigits_all_digit A
        rw [List.all_eq_true] at h
        exact h
      rcases Nat.eq_zero_or_pos m with hm | hm
      · subst hm
        refine ⟨(c :: low) ++ natDigits A, ?_, ?_⟩
        · simp [gnds_name, hsym]
        · have hmatch := gndsMatch_shape hc hlow hdsA (natDigits_ne_nil A) (Or.inl rfl)
          rw [List.append_nil] at hmatch
          rw [List.cons_append]
          simp only [zam, hmatch, hnum, List.isEmpty_nil, if_true, parseDigits_natDigits]
      · refine ⟨(c :: low) ++ natDigits A ++ ('_' :: 'm' :: natDigits m), ?_, ?_⟩
        · simp [gnds_name, hsym, hm]
        · have hdsM : ∀ a ∈ natDigits m, isDigitC a = true := by
            have h := natDigits_all_digit m
            rw [List.all_eq_true] at h
            exact h
          have hmatch := gndsMatch_shape hc hlow hdsA (natDigits_ne_nil A)
            (Or.inr ⟨'m', natDigits m, rfl, Or.inr rfl, natDigits_ne_nil m, hdsM⟩)
          rw [List.append_assoc, List.cons_append]
          simp only [zam, hmatch, hnum, List.isEmpty_cons, if_false, List.drop_succ_cons,
            List.drop_zero, parseDigits_natDigits, Bool.false_eq_true]

/-- Witness for C1 at (Z, A, m) = (95, 242, 1), i.e. Am242_m1. -/
theorem zam_gnds_name_roundtrip_witness :
    ∃ nm, gnds_name 95 242 1 = some nm ∧ zam nm = .ok (95, 242, 1) :=
  zam_gnds_name_roundtrip 95 242 1 (by decide) (by decide)

/-! ## C3: the grammar actually accepted by `zam` -/

/-- Claim-side: full-string match of `Digit+ ("_m" Digit+)?`.  The digit run
is scanned greedily, which is equivalent to the grammar because the only
continuation starts with `'_'`, which is not a digit. -/
def digitsThenOptSuffix (t : List Char) : Bool :=
  let ds := t.takeWhile isDigitC
  let r := t.dropWhile isDigitC
  !ds.isEmpty &&
    (r.isEmpty ||
      match r with
      | '_' :: 'm' :: ms => !ms.isEmpty && ms.all isDigitC
      | _ => false)

/-- Claim-side: the spec grammar `Letter Letter? Digit+ ("_m" Digit+)?` as a
full-string match (the claim's stated acceptance condition for `zam`). -/
def claimGrammar (s : List Char) : Bool :=
  match s with
  | [] => false
  | c :: rest =>
    isAlphaC c &&
      (digitsThenOptSuffix rest ||
        match rest with
        | c2 :: rest2 => isAlphaC c2 && digitsThenOptSuffix rest2
        | [] => false)

/-- Claim-side: the strings on which the code's regex actually finds a match —
a prefix consisting of one `[A-Zn]` character, a run of lowercase letters and
at least one digit (anything may follow). -/
def ExtGrammarHead (s : List Char) : Prop :=
  ∃ c low d rest, s = c :: (low ++ d :: rest) ∧ isSymStartC c = true ∧
    (∀ a ∈ low, isLowerC a = true) ∧ isDigitC d = true

theorem gndsMatch_eq_none_iff (s : List Char) :
    gndsMatch s = none ↔ ¬ ExtGrammarHead s := by
  constructor
  · intro hnone hext
    obtain ⟨c, low, d, rest, rfl, hc, hlow, hd⟩ := hext
    have hld : isLowerC d = false := not_isLowerC_of_isDigitC hd
    have hTW : (low ++ d :: rest).takeWhile isLowerC = low := takeWhile_stop hlow hld
    have hDW : (low ++ d :: rest).dropWhile isLowerC = d :: rest := dropWhile_stop hlow hld
    simp only [gndsMatch, hc, if_true, hTW, hDW, List.takeWhile_cons_of_pos hd,
      List.isEmpty_cons, Bool.false_eq_true, if_false] at hnone
    exact Option.some_ne_none _ hnone
  · intro hnext
    cases s with
    | nil => rfl
    | cons c rest =>
      by_cases hc : isSymStartC c = true
      · cases hr1 : rest.dropWhile isLowerC with
        | nil => simp only [gndsMatch, hc, if_true, hr1, List.takeWhile_nil,
            List.isEmpty_nil, if_true]
        | cons d rest' =>
          have hsplit : rest = rest.takeWhile isLowerC ++ d :: rest' := by
            rw [← hr1]; exact (List.takeWhile_append_dropWhile isLowerC rest).symm
          by_cases hd : isDigitC d = true
          · exact absurd
              ⟨c, rest.takeWhile isLowerC, d, rest', by conv_lhs => rw [hsplit], hc,
                fun a ha => List.mem_takeWhile_imp ha, hd⟩ hnext
          · have hTW0 : (d :: rest').takeWhile isDigitC = [] :=
              List.takeWhile_cons_of_neg (by simp [hd])
            simp only [gndsMatch, hc, if_true, hr1, hTW0, List.isEmpty_nil, if_true]
      · simp only [gndsMatch, if_neg hc]

/-- **C3 counterexample** — `"H1x"` does not match the claimed grammar
`Letter Letter? Digit+ ("_m" Digit+)?`, yet `zam` does not fail with
`InvalidNuclideName`: the prefix-matching regex ignores the trailing `'x'`
and `zam "H1x"` succeeds with `(1, 1, 0)`. -/
theorem zam_grammar_counterexample :
    claimGrammar "H1x".toList = false ∧ zam "H1x".toList = .ok (1, 1, 0) := by
  constructor
  · decide
  · decide

/-- **C3 (amended)** — `zam` accepts exactly the strings that begin with a
fragment `[A-Zn] Lowercase* Digit+` (trailing characters are ignored, the
letter run may be longer than two, and the greedily parsed metastable suffix
may use `'e'` as well as `'m'`): every other string fails with
`InvalidNuclideName`; when the parsed leading letters are not a recognized
element symbol it fails with `UnknownElement`; when no metastable suffix is
parsed the returned m is 0. -/
theorem zam_amended :
    (∀ s, zam s = .error (.invalidNuclideName s) ↔ ¬ ExtGrammarHead s) ∧
    (∀ s sym ds st, gndsMatch s = some (sym, ds, st) → atomicNumberOf sym = none →
      zam s = .error (.unknownElement sym)) ∧
    (∀ s sym ds Z, gndsMatch s = some (sym, ds, []) → atomicNumberOf sym = some Z →
      zam s = .ok (Z, parseDigits ds, 0)) := by
  refine ⟨fun s => ?_, fun s sym ds st hm hn => ?_, fun s sym ds Z hm hn => ?_⟩
  · rw [← gndsMatch_eq_none_iff]
    constructor
    · intro h
      cases hg : gndsMatch s with
      | none => rfl
      | some v =>
        obtain ⟨sym, ds, st⟩ := v
        cases hn : atomicNumberOf sym with
        | none => simp [zam, hg, hn] at h
        | some Z => simp [zam, hg, hn] at h
    · intro h
      simp [zam, h]
  · simp [zam, hm, hn]
  · simp [zam, hm, hn, List.isEmpty_nil]

/-- Witness for the C3 amended theorem: `"H1_x7"` has the grammar prefix
`H1`, so it is accepted (the broken suffix `_x7` is ignored), while `"_m1"`
has no grammar prefix and fails with `InvalidNuclideName`. -/
theorem zam_amended_witness :
    zam "_m1".toList = .error (.invalidNuclideName "_m1".toList) ∧
    zam "Xq7z".toList = .error (.unknownElement "Xq".toList) ∧
    zam "H1_x7".toList = .ok (1, 1, 0) := by
  refine ⟨?_, ?_, ?_⟩
  · exact (zam_amended.1 "_m1".toList).mpr (by
      rintro ⟨c, low, d, rest, heq, hc, hlow, hd⟩
      have : c = '_' := by
        have := congrArg (List.head? ·) heq
        simpa using this.symm
      subst this
      exact absurd hc (by decide))
  · exact zam_amended.2.1 "Xq7z".toList "Xq".toList ['7'] [] (by decide) (by decide)
  · exact zam_amended.2.2 "H1_x7".toList "H".toList ['1'] 1 (by decide) (by decide)

/-! ## AbundanceTable: `NATURAL_ABUNDANCE`, `ELEMENT_SYMBOL`, `isotopes` -/

/-- The `NATURAL_ABUNDANCE` dict of data.py (atomic-fraction abundances),
in the literal's own insertion order. -/
def NATURAL_ABUNDANCE : List (String × ℚ) :=
  [("H1", 0.999885),
   ("H2", 0.000115),
   ("He3", 1.34e-06),
   ("He4", 0.99999866),
   ("Li6", 0.0759),
   ("Li7", 0.9241),
   ("Be9", 1.0),
   ("B10", 0.199),
   ("B11", 0.801),
   ("C12", 0.9893),
   ("C13", 0.0107),
   ("N14", 0.99636),
   ("N15", 0.00364),
   ("O16", 0.99757),
   ("O17", 0.00038),
   ("O18", 0.00205),
   ("F19", 1.0),
   ("Ne20", 0.9048),
   ("Ne21", 0.0027),
   ("Ne22", 0.0925),
   ("Na23", 1.0),
   ("Mg24", 0.7899),
   ("Mg25", 0.1),
   ("Mg26", 0.1101),
   ("Al27", 1.0),
   ("Si28", 0.92223),
   ("Si29", 0.04685),
   ("Si30", 0.03092),
   ("P31", 1.0),
   ("S32", 0.9499),
   ("S33", 0.0075),
   ("S34", 0.0425),
   ("S36", 0.0001),
   ("Cl35", 0.7576),
   ("Cl37", 0.2424),
   ("Ar36", 0.003336),
   ("Ar38", 0.000629),
   ("Ar40", 0.996035),
   ("K39", 0.932581),
   ("K40", 0.000117),
   ("K41", 0.067302),
   ("Ca40", 0.96941),
   ("Ca42", 0.00647),
   ("Ca43", 0.00135),
   ("Ca44", 0.02086),
   ("Ca46", 4e-05),
   ("Ca48", 0.00187),
   ("Sc45", 1.0),
   ("Ti46", 0.0825),
   ("Ti47", 0.0744),
   ("Ti48", 0.7372),
   ("Ti49", 0.0541),
   ("Ti50", 0.0518),
   ("V50", 0.0025),
   ("V51", 0.9975),
   ("Cr50", 0.04345),
   ("Cr52", 0.83789),
   ("Cr53", 0.09501),
   ("Cr54", 0.02365),
   ("Mn55", 1.0),
   ("Fe54", 0.05845),
   ("Fe56", 0.91754),
   ("Fe57", 0.02119),
   ("Fe58", 0.00282),
   ("Co59", 1.0),
   ("Ni58", 0.68077),
   ("Ni60", 0.26223),
   ("Ni61", 0.011399),
   ("Ni62", 0.036346),
   ("Ni64", 0.009255),
   ("Cu63", 0.6915),
   ("Cu65", 0.3085),
   ("Zn64", 0.4917),
   ("Zn66", 0.2773),
   ("Zn67", 0.0404),
   ("Zn68", 0.1845),
   ("Zn70", 0.0061),
   ("Ga69", 0.60108),
   ("Ga71", 0.39892),
   ("Ge70", 0.2057),
   ("Ge72", 0.2745),
   ("Ge73", 0.0775),
   ("Ge74", 0.365),
   ("Ge76", 0.0773),
   ("As75", 1.0),
   ("Se74", 0.0089),
   ("Se76", 0.0937),
   ("Se77", 0.0763),
   ("Se78", 0.2377),
   ("Se80", 0.4961),
   ("Se82", 0.0873),
   ("Br79", 0.5069),
   ("Br81", 0.4931),
   ("Kr78", 0.00355),
   ("Kr80", 0.02286),
   ("Kr82", 0.11593),
   ("Kr83", 0.115),
   ("Kr84", 0.56987),
   ("Kr86", 0.17279),
   ("Rb85", 0.7217),
   ("Rb87", 0.2783),
   ("Sr84", 0.0056),
   ("Sr86", 0.0986),
   ("Sr87", 0.07),
   ("Sr88", 0.8258),
   ("Y89", 1.0),
   ("Zr90", 0.5145),
   ("Zr91", 0.1122),
   ("Zr92", 0.1715),
   ("Zr94", 0.1738),
   ("Zr96", 0.028),
   ("Nb93", 1.0),
   ("Mo92", 0.1453),
   ("Mo94", 0.0915),
   ("Mo95", 0.1584),
   ("Mo96", 0.1667),
   ("Mo97", 0.096),
   ("Mo98", 0.2439),
   ("Mo100", 0.0982),
   ("Ru96", 0.0554),
   ("Ru98", 0.0187),
   ("Ru99", 0.1276),
   ("Ru100", 0.126),
   ("Ru101", 0.1706),
   ("Ru102", 0.3155),
   ("Ru104", 0.1862),
   ("Rh103", 1.0),
   ("Pd102", 0.0102),
   ("Pd104", 0.1114),
   ("Pd105", 0.2233),
   ("Pd106", 0.2733),
   ("Pd108", 0.2646),
   ("Pd110", 0.1172),
   ("Ag107", 0.51839),
   ("Ag109", 0.48161),
   ("Cd106", 0.0125),
   ("Cd108", 0.0089),
   ("Cd110", 0.1249),
   ("Cd111", 0.128),
   ("Cd112", 0.2413),
   ("Cd113", 0.1222),
   ("Cd114", 0.2873),
   ("Cd116", 0.0749),
   ("In113", 0.0429),
   ("In115", 0.9571),
   ("Sn112", 0.0097),
   ("Sn114", 0.0066),
   ("Sn115", 0.0034),
   ("Sn116", 0.1454),
   ("Sn117", 0.0768),
   ("Sn118", 0.2422),
   ("Sn119", 0.0859),
   ("Sn120", 0.3258),
   ("Sn122", 0.0463),
   ("Sn124", 0.0579),
   ("Sb121", 0.5721),
   ("Sb123", 0.4279),
   ("Te120", 0.0009),
   ("Te122", 0.0255),
   ("Te123", 0.0089),
   ("Te124", 0.0474),
   ("Te125", 0.0707),
   ("Te126", 0.1884),
   ("Te128", 0.3174),
   ("Te130", 0.3408),
   ("I127", 1.0),
   ("Xe124", 0.000952),
   ("Xe126", 0.00089),
   ("Xe128", 0.019102),
   ("Xe129", 0.264006),
   ("Xe130", 0.04071),
   ("Xe131", 0.212324),
   ("Xe132", 0.269086),
   ("Xe134", 0.104357),
   ("Xe136", 0.088573),
   ("Cs133", 1.0),
   ("Ba130", 0.00106),
   ("Ba132", 0.00101),
   ("Ba134", 0.02417),
   ("Ba135", 0.06592),
   ("Ba136", 0.07854),
   ("Ba137", 0.11232),
   ("Ba138", 0.71698),
   ("La138", 0.0008881),
   ("La139", 0.9991119),
   ("Ce136", 0.00185),
   ("Ce138", 0.00251),
   ("Ce140", 0.8845),
   ("Ce142", 0.11114),
   ("Pr141", 1.0),
   ("Nd142", 0.27152),
   ("Nd143", 0.12174),
   ("Nd144", 0.23798),
   ("Nd145", 0.08293),
   ("Nd146", 0.17189),
   ("Nd148", 0.05756),
   ("Nd150", 0.05638),
   ("Sm144", 0.0307),
   ("Sm147", 0.1499),
   ("Sm148", 0.1124),
   ("Sm149", 0.1382),
   ("Sm150", 0.0738),
   ("Sm152", 0.2675),
   ("Sm154", 0.2275),
   ("Eu151", 0.4781),
   ("Eu153", 0.5219),
   ("Gd152", 0.002),
   ("Gd154", 0.0218),
   ("Gd155", 0.148),
   ("Gd156", 0.2047),
   ("Gd157", 0.1565),
   ("Gd158", 0.2484),
   ("Gd160", 0.2186),
   ("Tb159", 1.0),
   ("Dy156", 0.00056),
   ("Dy158", 0.00095),
   ("Dy160", 0.02329),
   ("Dy161", 0.18889),
   ("Dy162", 0.25475),
   ("Dy163", 0.24896),
   ("Dy164", 0.2826),
   ("Ho165", 1.0),
   ("Er162", 0.00139),
   ("Er164", 0.01601),
   ("Er166", 0.33503),
   ("Er167", 0.22869),
   ("Er168", 0.26978),
   ("Er170", 0.1491),
   ("Tm169", 1.0),
   ("Yb168", 0.00123),
   ("Yb170", 0.02982),
   ("Yb171", 0.1409),
   ("Yb172", 0.2168),
   ("Yb173", 0.16103),
   ("Yb174", 0.32026),
   ("Yb176", 0.12996),
   ("Lu175", 0.97401),
   ("Lu176", 0.02599),
   ("Hf174", 0.0016),
   ("Hf176", 0.0526),
   ("Hf177", 0.186),
   ("Hf178", 0.2728),
   ("Hf179", 0.1362),
   ("Hf180", 0.3508),
   ("Ta180", 0.0001201),
   ("Ta181", 0.9998799),
   ("W180", 0.0012),
   ("W182", 0.265),
   ("W183", 0.1431),
   ("W184", 0.3064),
   ("W186", 0.2843),
   ("Re185", 0.374),
   ("Re187", 0.626),
   ("Os184", 0.0002),
   ("Os186", 0.0159),
   ("Os187", 0.0196),
   ("Os188", 0.1324),
   ("Os189", 0.1615),
   ("Os190", 0.2626),
   ("Os192", 0.4078),
   ("Ir191", 0.373),
   ("Ir193", 0.627),
   ("Pt190", 0.00012),
   ("Pt192", 0.00782),
   ("Pt194", 0.3286),
   ("Pt195", 0.3378),
   ("Pt196", 0.2521),
   ("Pt198", 0.07356),
   ("Au197", 1.0),
   ("Hg196", 0.0015),
   ("Hg198", 0.0997),
   ("Hg199", 0.1687),
   ("Hg200", 0.231),
   ("Hg201", 0.1318),
   ("Hg202", 0.2986),
   ("Hg204", 0.0687),
   ("Tl203", 0.2952),
   ("Tl205", 0.7048),
   ("Pb204", 0.014),
   ("Pb206", 0.241),
   ("Pb207", 0.221),
   ("Pb208", 0.524),
   ("Bi209", 1.0),
   ("Th232", 1.0),
   ("Pa231", 1.0),
   ("U234", 5.4e-05),
   ("U235", 0.007204),
   ("U238", 0.992742)]

/-- The `ELEMENT_SYMBOL` dict of data.py: IUPAC element names (and listed
alternate spellings) to symbols, in the literal's own insertion order. -/
def ELEMENT_SYMBOL : List (String × String) :=
  [("neutron", "n"),
   ("hydrogen", "H"),
   ("helium", "He"),
   ("lithium", "Li"),
   ("beryllium", "Be"),
   ("boron", "B"),
   ("carbon", "C"),
   ("nitrogen", "N"),
   ("oxygen", "O"),
   ("fluorine", "F"),
   ("neon", "Ne"),
   ("sodium", "Na"),
   ("magnesium", "Mg"),
   ("aluminium", "Al"),
   ("aluminum", "Al"),
   ("silicon", "Si"),
   ("phosphorus", "P"),
   ("sulfur", "S"),
   ("sulphur", "S"),
   ("chlorine", "Cl"),
   ("argon", "Ar"),
   ("potassium", "K"),
   ("calcium", "Ca"),
   ("scandium", "Sc"),
   ("titanium", "Ti"),
   ("vanadium", "V"),
   ("chromium", "Cr"),
   ("manganese", "Mn"),
   ("iron", "Fe"),
   ("cobalt", "Co"),
   ("nickel", "Ni"),
   ("copper", "Cu"),
   ("zinc", "Zn"),
   ("gallium", "Ga"),
   ("germanium", "Ge"),
   ("arsenic", "As"),
   ("selenium", "Se"),
   ("bromine", "Br"),
   ("krypton", "Kr"),
   ("rubidium", "Rb"),
   ("strontium", "Sr"),
   ("yttrium", "Y"),
   ("zirconium", "Zr"),
   ("niobium", "Nb"),
   ("molybdenum", "Mo"),
   ("technetium", "Tc"),
   ("ruthenium", "Ru"),
   ("rhodium", "Rh"),
   ("palladium", "Pd"),
   ("silver", "Ag"),
   ("cadmium", "Cd"),
   ("indium", "In"),
   ("tin", "Sn"),
   ("antimony", "Sb"),
   ("tellurium", "Te"),
   ("iodine", "I"),
   ("xenon", "Xe"),
   ("caesium", "Cs"),
   ("cesium", "Cs"),
   ("barium", "Ba"),
   ("lanthanum", "La"),
   ("cerium", "Ce"),
   ("praseodymium", "Pr"),
   ("neodymium", "Nd"),
   ("promethium", "Pm"),
   ("samarium", "Sm"),
   ("europium", "Eu"),
   ("gadolinium", "Gd"),
   ("terbium", "Tb"),
   ("dysprosium", "Dy"),
   ("holmium", "Ho"),
   ("erbium", "Er"),
   ("thulium", "Tm"),
   ("ytterbium", "Yb"),
   ("lutetium", "Lu"),
   ("hafnium", "Hf"),
   ("tantalum", "Ta"),
   ("tungsten", "W"),
   ("wolfram", "W"),
   ("rhenium", "Re"),
   ("osmium", "Os"),
   ("iridium", "Ir"),
   ("platinum", "Pt"),
   ("gold", "Au"),
   ("mercury", "Hg"),
   ("thallium", "Tl"),
   ("lead", "Pb"),
   ("bismuth", "Bi"),
   ("polonium", "Po"),
   ("astatine", "At"),
   ("radon", "Rn"),
   ("francium", "Fr"),
   ("radium", "Ra"),
   ("actinium", "Ac"),
   ("thorium", "Th"),
   ("protactinium", "Pa"),
   ("uranium", "U"),
   ("neptunium", "Np"),
   ("plutonium", "Pu"),
   ("americium", "Am"),
   ("curium", "Cm"),
   ("berkelium", "Bk"),
   ("californium", "Cf"),
   ("einsteinium", "Es"),
   ("fermium", "Fm"),
   ("mendelevium", "Md"),
   ("nobelium", "No"),
   ("lawrencium", "Lr"),
   ("rutherfordium", "Rf"),
   ("dubnium", "Db"),
   ("seaborgium", "Sg"),
   ("bohrium", "Bh"),
   ("hassium", "Hs"),
   ("meitnerium", "Mt"),
   ("darmstadtium", "Ds"),
   ("roentgenium", "Rg"),
   ("copernicium", "Cn"),
   ("nihonium", "Nh"),
   ("flerovium", "Fl"),
   ("moscovium", "Mc"),
   ("livermorium", "Lv"),
   ("tennessine", "Ts"),
   ("oganesson", "Og")]

/-- ASCII `str.lower` on one character (all names in play are ASCII). -/
def toLowerC (c : Char) : Char :=
  if 65 ≤ c.toNat && c.toNat ≤ 90 then Char.ofNat (c.toNat + 32) else c

/-- Python `s.lower()`. -/
def lowerStr (s : List Char) : List Char := s.map toLowerC

/-- `re.match(r'{}\d+'.format(element), key)` of the `isotopes` loop, for an
element string consisting only of letters: then the interpolated pattern
treats the element as a literal, so the key must start with the element
string followed by at least one digit (trailing characters are allowed by
`re.match`).  An element string containing regex metacharacters (e.g. `'C*'`
or `'('`) would quantify or fail to compile in the source; such arguments
are outside this model, and every theorem about `isotopes` on
caller-supplied short arguments carries an all-letters hypothesis. -/
def matchSymDigits (element key : List Char) : Bool :=
  element.isPrefixOf key &&
    match key.drop element.length with
    | c :: _ => isDigitC c
    | [] => false

/-- `isotopes(element)` of data.py. -/
def isotopes (element : List Char) : Except DataError (List (String × ℚ)) := do
  let elem ←
    if element.length > 2 then
      match ELEMENT_SYMBOL.find? (fun kv => kv.1.toList == lowerStr element) with
      | none => Except.error (.unknownElement element)
      | some kv => pure kv.2.toList
    else pure element
  pure (NATURAL_ABUNDANCE.filter (fun kv => matchSymDigits elem kv.1.toList))

/-! ## C6/C4: what `isotopes` returns -/

/-- Claim-side: the key is the element symbol immediately followed by digits
(and nothing else). -/
def exactSymDigits (element key : List Char) : Bool :=
  element.isPrefixOf key &&
    !(key.drop element.length).isEmpty && (key.drop element.length).all isDigitC

set_option maxHeartbeats 4000000 in
set_option maxRecDepth 100000 in
theorem isotopes_exact_aux :
    ATOMIC_SYMBOL.all (fun kv => decide (kv.2.toList.length ≤ 2) &&
      NATURAL_ABUNDANCE.all (fun e =>
        matchSymDigits kv.2.toList e.1.toList == exactSymDigits kv.2.toList e.1.toList)) = true := by
  decide

/-- **C6** — For every recognized element symbol, `isotopes` returns exactly
the entries of `NATURAL_ABUNDANCE` whose key is the symbol immediately
followed by digits, in the table's own order (so no isotope of a different
element whose symbol merely starts with the queried one is ever returned;
the function is pure, so the order is reproducible across calls). -/
theorem isotopes_table_exact :
    ∀ kv ∈ ATOMIC_SYMBOL, isotopes kv.2.toList =
      .ok (NATURAL_ABUNDANCE.filter (fun e => exactSymDigits kv.2.toList e.1.toList)) := by
  intro kv hkv
  have haux := isotopes_exact_aux
  rw [List.all_eq_true] at haux
  have h := haux kv hkv
  rw [Bool.and_eq_true] at h
  obtain ⟨hlen, hinner⟩ := h
  have hlen2 : kv.2.toList.length ≤ 2 := of_decide_eq_true hlen
  rw [List.all_eq_true] at hinner
  have hfilter : NATURAL_ABUNDANCE.filter (fun e => matchSymDigits kv.2.toList e.1.toList)
      = NATURAL_ABUNDANCE.filter (fun e => exactSymDigits kv.2.toList e.1.toList) :=
    List.filter_congr (fun e he => by
      have h := hinner e he
      rwa [beq_iff_eq] at h)
  unfold isotopes
  rw [if_neg (by omega)]
  simp only [bind, Except.bind, pure, Except.pure, hfilter]

/-- Witness for C6 at the symbol 'H'. -/
theorem isotopes_table_exact_witness :
    isotopes "H".toList =
      .ok (NATURAL_ABUNDANCE.filter (fun e => exactSymDigits "H".toList e.1.toList)) :=
  isotopes_table_exact (1, "H") (by decide)

set_option maxRecDepth 100000 in
/-- **C4 counterexample** — `"Xx"` is neither a recognized symbol nor (even
lower-cased) a recognized element name, yet `isotopes "Xx"` does not fail
with `UnknownElement`: arguments of length ≤ 2 bypass the name-resolution
check entirely, and the filter simply finds nothing. -/
theorem isotopes_unknown_symbol_counterexample :
    (∀ kv ∈ ATOMIC_SYMBOL, kv.2 ≠ "Xx") ∧
    (∀ kv ∈ ELEMENT_SYMBOL, kv.1 ≠ "xx" ∧ kv.2 ≠ "Xx") ∧
    isotopes "Xx".toList = .ok [] := by
  refine ⟨by decide, by decide, by decide⟩

set_option maxRecDepth 100000 in
/-- **C4 (amended)** — Only arguments longer than two characters that fail
name resolution raise `UnknownElement`; one- or two-character arguments made
of letters (the intended symbols — arguments containing regex
metacharacters are interpolated into the match pattern unescaped and are
outside this characterization) are used directly as symbols without
validation and return the (possibly empty) list of matching entries rather
than failing; a recognized element with no naturally occurring isotopes
(e.g. technetium) yields an empty list. -/
theorem isotopes_amended :
    (∀ e, 2 < e.length →
        ELEMENT_SYMBOL.find? (fun kv => kv.1.toList == lowerStr e) = none →
        isotopes e = .error (.unknownElement e)) ∧
    (∀ e, e.length ≤ 2 → e.all isAlphaC = true →
        isotopes e = .ok (NATURAL_ABUNDANCE.filter (fun kv => matchSymDigits e kv.1.toList))) ∧
    isotopes "technetium".toList = .ok [] ∧
    isotopes "Unobtainium".toList = .error (.unknownElement "Unobtainium".toList) := by
  refine ⟨fun e h1 h2 => ?_, fun e h1 _ => ?_, by decide, by decide⟩
  · unfold isotopes
    rw [if_pos h1, h2]
    rfl
  · unfold isotopes
    rw [if_neg (by omega)]
    simp only [bind, Except.bind, pure, Except.pure]

set_option maxRecDepth 100000 in
/-- Witness for the C4 amended theorem at `"Unobtainium"` and `"H"`. -/
theorem isotopes_amended_witness :
    isotopes "Unobtainium".toList = .error (.unknownElement "Unobtainium".toList) ∧
    isotopes "H".toList =
      .ok (NATURAL_ABUNDANCE.filter (fun kv => matchSymDigits "H".toList kv.1.toList)) :=
  ⟨isotopes_amended.1 "Unobtainium".toList (by decide) (by decide),
   isotopes_amended.2.1 "H".toList (by decide) (by decide)⟩

/-! ## DecayModel: `half_life` and `decay_constant` -/

/-- `half_life(isotope)` once `_HALF_LIFE` holds `hl`, the parsed external
JSON dataset (a parameter, since the data file is not part of the source):
`_HALF_LIFE.get(isotope.lower())`. -/
def half_life (hl : List (List Char × ℚ)) (isotope : List Char) : Option ℚ :=
  (hl.find? (fun kv => kv.1 == lowerStr isotope)).map (fun kv => kv.2)

/-- `decay_constant(isotope)`: `_LOG_TWO / t if t else 0.0`.  The float
`_LOG_TWO = log(2.0)` is taken as an opaque parameter; Python truthiness of
the float `t` is `t ≠ 0`, and `None` is falsy. -/
def decay_constant (log_two : ℚ) (hl : List (List Char × ℚ))
    (isotope : List Char) : ℚ :=
  match half_life hl isotope with
  | some t => if t ≠ 0 then log_two / t else 0
  | none => 0

/-- **C8** — `decay_constant` returns `ln 2 / half_life` when the recorded
half-life is positive, and exactly 0 when the half-life is absent from the
dataset or recorded as zero; it is a total function (no division error at a
zero half-life). -/
theorem decay_constant_spec (log_two : ℚ) (hl : List (List Char × ℚ))
    (isotope : List Char) :
    (∀ t, half_life hl isotope = some t → 0 < t →
        decay_constant log_two hl isotope = log_two / t) ∧
    (half_life hl isotope = none → decay_constant log_two hl isotope = 0) ∧
    (half_life hl isotope = some 0 → decay_constant log_two hl isotope = 0) := by
  refine ⟨fun t ht hpos => ?_, fun h => ?_, fun h => ?_⟩
  · simp [decay_constant, ht, ne_of_gt hpos]
  · simp [decay_constant, h]
  · simp [decay_constant, h]

/-- Witness for C8 on a two-entry dataset: a recorded positive half-life, an
absent isotope, and a recorded zero half-life. -/
theorem decay_constant_spec_witness :
    decay_constant 1 [("pu239".toList, 2), ("k40".toList, 0)] "Pu239".toList = 1 / 2 ∧
    decay_constant 1 [("pu239".toList, 2), ("k40".toList, 0)] "U235".toList = 0 ∧
    decay_constant 1 [("pu239".toList, 2), ("k40".toList, 0)] "K40".toList = 0 := by
  refine ⟨?_, ?_, ?_⟩
  · exact (decay_constant_spec 1 _ _).1 2 (by rfl) (by norm_num)
  · exact (decay_constant_spec 1 _ _).2.1 (by rfl)
  · exact (decay_constant_spec 1 _ _).2.2 (by rfl)

/-! ## AtomicMassCache: `atomic_mass`, the element-zero synthesis, `atomic_weight` -/

/-- Dict lookup in a mass table (first, i.e. most recently inserted, match). -/
def lookupMass (tbl : List (List Char × ℚ)) (key : List Char) : Option ℚ :=
  (tbl.find? (fun kv => kv.1 == key)).map (fun kv => kv.2)

/-- Python `isotope[:isotope.find('_')] if '_' in isotope else isotope`. -/
def stripMetastable (isotope : List Char) : List Char :=
  isotope.takeWhile (fun c => !(c == '_'))

/-- The filter loop of `isotopes` alone; `isotopes_short` shows `isotopes`
reduces to it for the 1–2 character symbols used by the synthesis loop. -/
def isotopesL (element : List Char) : List (String × ℚ) :=
  NATURAL_ABUNDANCE.filter (fun kv => matchSymDigits element kv.1.toList)

theorem isotopes_short (e : List Char) (h : e.length ≤ 2)
    (hA : e.all isAlphaC = true) :
    isotopes e = .ok (isotopesL e) := by
  unfold isotopes isotopesL
  rw [if_neg (by omega)]
  simp only [bind, Except.bind, pure, Except.pure]

/-- The elements given synthetic lumped `<element>0` entries in `atomic_mass`. -/
def ELEMENT_ZERO : List String := ["C", "Zn", "Pt", "Os", "Tl"]

/-- One pass of the synthesis loop of `atomic_mass`: compute
`sum(abundance * _ATOMIC_MASS[iso.lower()])` over `isotopes(element)` reading
from the current table `t` (`none` models a `KeyError` on a missing isotope
mass), and insert it under the key `element.lower() + '0'`. -/
def addElementZero (t : List (List Char × ℚ)) (element : String) :
    Option (List (List Char × ℚ)) :=
  ((isotopesL element.toList).foldl
      (fun acc kv => do
        let a ← acc
        let m ← lookupMass t (lowerStr kv.1.toList)
        pure (a + kv.2 * m))
      (some 0)).map
    (fun v => (lowerStr element.toList ++ ['0'], v) :: t)

/-- `_ATOMIC_MASS` after the one-time load: the parsed AME2020 file content
`base` (a parameter, since the mass file is not part of the source) extended
with the five synthetic element-zero entries. -/
def initAtomicMass (base : List (List Char × ℚ)) : Option (List (List Char × ℚ)) :=
  ELEMENT_ZERO.foldl (fun acc el => acc.bind (fun t => addElementZero t el)) (some base)

/-- `atomic_mass(isotope)` once the cache holds `table`: strip any metastable
suffix, lower-case, and look up (a `KeyError` is the spec's `UnknownIsotope`). -/
def atomic_mass (table : List (List Char × ℚ)) (isotope : List Char) :
    Except DataError ℚ :=
  match lookupMass table (lowerStr (stripMetastable isotope)) with
  | some m => .ok m
  | none => .error (.unknownIsotope isotope)

/-- `atomic_weight(element)` of data.py. -/
def atomic_weight (table : List (List Char × ℚ)) (element : List Char) :
    Except DataError ℚ := do
  let isos ← isotopes element
  let weight ← isos.foldlM
    (fun acc kv => do
      let m ← atomic_mass table kv.1.toList
      pure (acc + m * kv.2))
    (0 : ℚ)
  if weight > 0 then pure weight
  else .error (.noNaturalIsotopes element)

theorem except_bind_ok {ε α β : Type} (a : α) (f : α → Except ε β) :
    (Except.ok a >>= f : Except ε β) = f a := rfl

theorem except_pure_bind {ε α β : Type} (a : α) (f : α → Except ε β) :
    ((pure a : Except ε α) >>= f) = f a := rfl

theorem foldlM_masses (table : List (List Char × ℚ)) (f : String → ℚ) :
    ∀ (l : List (String × ℚ)) (acc : ℚ),
      (∀ kv ∈ l, atomic_mass table kv.1.toList = .ok (f kv.1)) →
      (l.foldlM (fun acc kv => do
          let m ← atomic_mass table kv.1.toList
          pure (acc + m * kv.2)) acc : Except DataError ℚ)
        = .ok (l.foldl (fun acc kv => acc + f kv.1 * kv.2) acc) := by
  intro l
  induction l with
  | nil => intro acc _; rfl
  | cons x xs ih =>
    intro acc h
    rw [List.foldlM_cons, h x (List.mem_cons_self x xs)]
    simp only [bind, Except.bind, pure, Except.pure, List.foldl_cons]
    exact ih _ (fun kv hkv => h kv (List.mem_cons_of_mem x hkv))

theorem foldl_weight_le (f : String → ℚ) :
    ∀ (l : List (String × ℚ)) (acc : ℚ),
      (∀ kv ∈ l, 0 ≤ f kv.1 * kv.2) →
      acc ≤ l.foldl (fun a kv => a + f kv.1 * kv.2) acc := by
  intro l
  induction l with
  | nil => intro acc _; exact le_refl acc
  | cons x xs ih =>
    intro acc h
    rw [List.foldl_cons]
    calc acc ≤ acc + f x.1 * x.2 := by
          have := h x (List.mem_cons_self x xs); linarith
      _ ≤ _ := ih _ (fun kv hkv => h kv (List.mem_cons_of_mem x hkv))

theorem foldl_weight_pos (f : String → ℚ) (l : List (String × ℚ)) (hne : l ≠ [])
    (hpos : ∀ kv ∈ l, 0 < f kv.1) (hab : ∀ kv ∈ l, 0 < kv.2) :
    0 < l.foldl (fun acc kv => acc + f kv.1 * kv.2) 0 := by
  obtain ⟨x, xs, rfl⟩ := List.exists_cons_of_ne_nil hne
  rw [List.foldl_cons]
  have hx : 0 < f x.1 * x.2 :=
    mul_pos (hpos x (List.mem_cons_self x xs)) (hab x (List.mem_cons_self x xs))
  calc (0 : ℚ) < 0 + f x.1 * x.2 := by linarith
    _ ≤ _ := foldl_weight_le f xs _ (fun kv hkv =>
        le_of_lt (mul_pos (hpos kv (List.mem_cons_of_mem x hkv))
          (hab kv (List.mem_cons_of_mem x hkv))))

/-- **C7** — `atomic_weight` returns exactly the abundance-weighted sum of
`atomic_mass` over `isotopes(element)`, accumulated in the same order (the
code literally folds `weight += atomic_mass(nuclide) * abundance`); when the
natural-isotope list is empty the sum is zero and it fails with
`NoNaturalIsotopes`, a condition distinct from `UnknownElement`. -/
theorem atomic_weight_spec (table : List (List Char × ℚ)) (element : List Char)
    (isos : List (String × ℚ)) (f : String → ℚ)
    (hiso : isotopes element = .ok isos)
    (hm : ∀ kv ∈ isos, atomic_mass table kv.1.toList = .ok (f kv.1))
    (hpos : ∀ kv ∈ isos, 0 < f kv.1) (hab : ∀ kv ∈ isos, 0 < kv.2) :
    (isos ≠ [] →
      atomic_weight table element =
        .ok (isos.foldl (fun acc kv => acc + f kv.1 * kv.2) 0)) ∧
    (isos = [] → atomic_weight table element = .error (.noNaturalIsotopes element)) ∧
    DataError.noNaturalIsotopes element ≠ DataError.unknownElement element := by
  refine ⟨fun hne => ?_, fun hnil => ?_, by simp⟩
  · unfold atomic_weight
    rw [hiso]
    simp only [except_bind_ok]
    rw [foldlM_masses table f isos 0 hm]
    simp only [except_bind_ok]
    have hw : 0 < isos.foldl (fun acc kv => acc + f kv.1 * kv.2) 0 :=
      foldl_weight_pos f isos hne hpos hab
    rw [if_pos hw]
    rfl
  · subst hnil
    unfold atomic_weight
    rw [hiso]
    simp only [except_bind_ok, List.foldlM_nil, except_pure_bind]
    rw [if_neg (by norm_num)]

set_option maxRecDepth 100000 in
/-- Witness for C7: a two-entry mass table for hydrogen gives the weighted
sum, and the empty isotope list of the bare symbol `"Tc"` gives
`NoNaturalIsotopes`. -/
theorem atomic_weight_spec_witness :
    atomic_weight [("h1".toList, 1), ("h2".toList, 1)] "H".toList =
      .ok ([("H1", (0.999885 : ℚ)), ("H2", 0.000115)].foldl
        (fun acc kv => acc + 1 * kv.2) 0) ∧
    atomic_weight [("h1".toList, 1), ("h2".toList, 1)] "Tc".toList =
      .error (.noNaturalIsotopes "Tc".toList) := by
  have hisoH : isotopes "H".toList = .ok [("H1", 0.999885), ("H2", 0.000115)] := by
    rw [isotopes_short "H".toList (by decide) (by decide)]
    rfl
  have hisoTc : isotopes "Tc".toList = .ok [] := by
    rw [isotopes_short "Tc".toList (by decide) (by decide)]
    rfl
  constructor
  · exact (atomic_weight_spec _ _ [("H1", 0.999885), ("H2", 0.000115)]
      (fun _ => 1) hisoH
      (by
        intro kv hkv
        simp only [List.mem_cons, List.not_mem_nil, or_false] at hkv
        rcases hkv with rfl | rfl <;> rfl)
      (by intro kv _; norm_num)
      (by
        intro kv hkv
        simp only [List.mem_cons, List.not_mem_nil, or_false] at hkv
        rcases hkv with rfl | rfl <;> norm_num)).1 (by simp)
  · exact (atomic_weight_spec _ _ [] (fun _ => 1) hisoTc
      (by intro kv h; cases h) (by intro kv h; cases h)
      (by intro kv h; cases h)).2.1 rfl

/-! ## C9: the lazy populate-once cache discipline of `atomic_mass` -/

/-- The mutable module state around `atomic_mass`: the `_ATOMIC_MASS` dict
(empty before first use) and a count of reads of the external mass file. -/
structure MassCacheState where
  cache : List (List Char × ℚ)
  fileReads : ℕ
  deriving Repr, DecidableEq

/-- One call of `atomic_mass` in the stateful model: `if not _ATOMIC_MASS:`
read and parse the file — producing the table `loaded` (parse plus synthesis)
and counting one file read — then perform the lookup. -/
def atomic_mass_call (loaded : List (List Char × ℚ)) (s : MassCacheState)
    (isotope : List Char) : MassCacheState × Except DataError ℚ :=
  let s' := if s.cache.isEmpty then
      { cache := loaded, fileReads := s.fileReads + 1 } else s
  (s', atomic_mass s'.cache isotope)

/-- A sequence of `atomic_mass` calls within one process, threading the
module state and collecting the results. -/
def runCalls (loaded : List (List Char × ℚ)) :
    MassCacheState → List (List Char) → MassCacheState × List (Except DataError ℚ)
  | s, [] => (s, [])
  | s, iso :: rest =>
    let step := atomic_mass_call loaded s iso
    let next := runCalls loaded step.1 rest
    (next.1, step.2 :: next.2)

theorem runCalls_populated (loaded : List (List Char × ℚ)) (s : MassCacheState)
    (hs : s.cache.isEmpty = false) :
    ∀ calls, runCalls loaded s calls =
      (s, calls.map (fun iso => atomic_mass s.cache iso)) := by
  intro calls
  induction calls with
  | nil => rfl
  | cons iso rest ih =>
    simp only [runCalls, atomic_mass_call, hs, Bool.false_eq_true, if_false, ih,
      List.map_cons]

/-- **C9** — Starting from the empty cache, any sequence of `atomic_mass`
calls reads the external file at most once (exactly once as soon as there is
a call, given that the file parses to a nonempty table); once populated the
state never changes again and no further reads happen; and every result is
the same pure function of the queried isotope, so two calls with the same
argument return identical values. -/
theorem atomic_mass_cache_discipline (loaded : List (List Char × ℚ))
    (hne : loaded ≠ []) (calls : List (List Char)) :
    (runCalls loaded ⟨[], 0⟩ calls).1.fileReads ≤ 1 ∧
    (∀ s : MassCacheState, s.cache = loaded →
        runCalls loaded s calls = (s, calls.map (fun iso => atomic_mass loaded iso))) ∧
    (runCalls loaded ⟨[], 0⟩ calls).2 =
      calls.map (fun iso => atomic_mass loaded iso) := by
  have hl : loaded.isEmpty = false := by
    cases loaded with
    | nil => exact absurd rfl hne
    | cons x xs => rfl
  have hrun : ∀ s : MassCacheState, s.cache = loaded →
      runCalls loaded s calls = (s, calls.map (fun iso => atomic_mass loaded iso)) := by
    intro s hsc
    have := runCalls_populated loaded s (by rw [hsc]; exact hl) calls
    rw [hsc] at this
    exact this
  have hmain : runCalls loaded ⟨[], 0⟩ calls =
      (if calls.isEmpty then (⟨[], 0⟩ : MassCacheState) else ⟨loaded, 1⟩,
       calls.map (fun iso => atomic_mass loaded iso)) := by
    cases calls with
    | nil => rfl
    | cons iso rest =>
      simp only [runCalls, atomic_mass_call, List.isEmpty_nil, if_true, List.isEmpty_cons,
        Bool.false_eq_true, if_false, List.map_cons, Nat.zero_add]
      rw [runCalls_populated loaded ⟨loaded, 1⟩ hl rest]
  refine ⟨?_, hrun, ?_⟩
  · rw [hmain]
    split <;> simp
  · rw [hmain]

/-- Witness for C9 on a one-entry file content and a three-call sequence that
queries the same isotope twice. -/
theorem atomic_mass_cache_discipline_witness :
    (runCalls [("h1".toList, 1)] ⟨[], 0⟩
        ["H1".toList, "Xx9".toList, "H1".toList]).1.fileReads ≤ 1 ∧
    (∀ s : MassCacheState, s.cache = [("h1".toList, 1)] →
        runCalls [("h1".toList, 1)] s ["H1".toList, "Xx9".toList, "H1".toList] =
          (s, ["H1".toList, "Xx9".toList, "H1".toList].map
            (fun iso => atomic_mass [("h1".toList, 1)] iso))) ∧
    (runCalls [("h1".toList, 1)] ⟨[], 0⟩ ["H1".toList, "Xx9".toList, "H1".toList]).2 =
      ["H1".toList, "Xx9".toList, "H1".toList].map
        (fun iso => atomic_mass [("h1".toList, 1)] iso) :=
  atomic_mass_cache_discipline [("h1".toList, 1)] (by simp)
    ["H1".toList, "Xx9".toList, "H1".toList]

/-! ## C10: the synthetic element-zero entries agree with `atomic_weight` -/

theorem option_some_bind {α β : Type} (a : α) (f : α → Option β) :
    ((some a : Option α) >>= f) = f a := rfl

theorem option_bind_some {α β : Type} (a : α) (f : α → Option β) :
    Option.bind (some a) f = f a := rfl

theorem lookupMass_cons_ne (k0 : List Char) (v : ℚ) (t : List (List Char × ℚ))
    (k : List Char) (h : k0 ≠ k) :
    lookupMass ((k0, v) :: t) k = lookupMass t k := by
  unfold lookupMass
  rw [List.find?_cons_of_neg _ (by simp [h])]

theorem lookupMass_cons_self (k0 : List Char) (v : ℚ) (t : List (List Char × ℚ)) :
    lookupMass ((k0, v) :: t) k0 = some v := by
  unfold lookupMass
  rw [List.find?_cons_of_pos _ (by simp)]
  rfl

/-- The key of the synthetic entry: `element.lower() + '0'`. -/
def elementZeroKey (el : String) : List Char := lowerStr el.toList ++ ['0']

/-- The value of the synthetic entry, as a function of the per-isotope masses
`f`: the abundance-weighted sum accumulated in the loop's order. -/
def elementZeroVal (f : String → ℚ) (el : String) : ℚ :=
  (isotopesL el.toList).foldl (fun a kv => a + kv.2 * f kv.1) 0

theorem elementZero_fold_eval (t : List (List Char × ℚ)) (f : String → ℚ) :
    ∀ (l : List (String × ℚ)) (acc : ℚ),
      (∀ kv ∈ l, lookupMass t (lowerStr kv.1.toList) = some (f kv.1)) →
      (l.foldl (fun acc kv => do
          let a ← acc
          let m ← lookupMass t (lowerStr kv.1.toList)
          pure (a + kv.2 * m)) (some acc))
        = some (l.foldl (fun a kv => a + kv.2 * f kv.1) acc) := by
  intro l
  induction l with
  | nil => intro acc _; rfl
  | cons x xs ih =>
    intro acc h
    rw [List.foldl_cons, List.foldl_cons]
    have hx := h x (List.mem_cons_self x xs)
    rw [hx]
    exact ih _ (fun kv hkv => h kv (List.mem_cons_of_mem x hkv))

theorem addElementZero_eval (t : List (List Char × ℚ)) (el : String) (f : String → ℚ)
    (hf : ∀ kv ∈ isotopesL el.toList, lookupMass t (lowerStr kv.1.toList) = some (f kv.1)) :
    addElementZero t el = some ((elementZeroKey el, elementZeroVal f el) :: t) := by
  unfold addElementZero elementZeroKey elementZeroVal
  rw [elementZero_fold_eval t f (isotopesL el.toList) 0 hf]
  rfl

set_option maxRecDepth 100000 in
theorem element_zero_keys_disjoint :
    ∀ el2 ∈ ELEMENT_ZERO, ∀ el ∈ ELEMENT_ZERO, ∀ kv ∈ isotopesL el.toList,
      elementZeroKey el2 ≠ lowerStr kv.1.toList := by
  decide

set_option maxRecDepth 100000 in
theorem element_zero_no_metastable :
    ∀ el ∈ ELEMENT_ZERO, ∀ kv ∈ isotopesL el.toList,
      stripMetastable kv.1.toList = kv.1.toList := by
  decide

set_option maxRecDepth 100000 in
theorem element_zero_nonempty :
    ∀ el ∈ ELEMENT_ZERO, isotopesL el.toList ≠ [] := by
  decide

theorem foldl_mul_comm (f : String → ℚ) :
    ∀ (l : List (String × ℚ)) (acc : ℚ),
      l.foldl (fun a kv => a + kv.2 * f kv.1) acc
        = l.foldl (fun a kv => a + f kv.1 * kv.2) acc := by
  intro l
  induction l with
  | nil => intro acc; rfl
  | cons x xs ih =>
    intro acc
    rw [List.foldl_cons, List.foldl_cons, mul_comm x.2 (f x.1)]
    exact ih _

/-- The two facets of C10 for one element, given a populated table whose
zero-key entry holds the synthesized sum and whose isotope lookups agree with
the per-isotope masses `f`. -/
theorem element_zero_case (tbl : List (List Char × ℚ)) (f : String → ℚ) (el : String)
    (hm0 : lookupMass tbl (elementZeroKey el) = some (elementZeroVal f el))
    (hiso : ∀ kv ∈ isotopesL el.toList, lookupMass tbl (lowerStr kv.1.toList) = some (f kv.1))
    (hfpos : ∀ kv ∈ isotopesL el.toList, 0 < f kv.1)
    (hab : ∀ kv ∈ isotopesL el.toList, 0 < kv.2)
    (hne : isotopesL el.toList ≠ [])
    (hstrip : ∀ kv ∈ isotopesL el.toList, stripMetastable kv.1.toList = kv.1.toList)
    (hstrip0 : lowerStr (stripMetastable (el.toList ++ ['0'])) = elementZeroKey el)
    (hlen : el.toList.length ≤ 2) (hAlpha : el.toList.all isAlphaC = true) :
    ∃ w, atomic_mass tbl (el.toList ++ ['0']) = .ok w ∧
      atomic_weight tbl el.toList = .ok w := by
  refine ⟨elementZeroVal f el, ?_, ?_⟩
  · unfold atomic_mass
    rw [hstrip0, hm0]
  · have hm : ∀ kv ∈ isotopesL el.toList,
        atomic_mass tbl kv.1.toList = .ok (f kv.1) := by
      intro kv hkv
      unfold atomic_mass
      rw [hstrip kv hkv, hiso kv hkv]
    unfold atomic_weight
    rw [isotopes_short el.toList hlen hAlpha]
    simp only [except_bind_ok]
    rw [foldlM_masses tbl f (isotopesL el.toList) 0 hm]
    simp only [except_bind_ok]
    rw [if_pos (foldl_weight_pos f (isotopesL el.toList) hne hfpos hab)]
    unfold elementZeroVal
    rw [foldl_mul_comm f (isotopesL el.toList) 0]
    rfl

set_option maxRecDepth 100000 in
/-- **C10** — For each of C, Zn, Pt, Os and Tl, once the cache is populated
(from any parsed mass-file content `base` that contains a positive mass for
every natural isotope of those elements), the synthetic `<symbol>0` entry
agrees with the element's atomic weight: `atomic_mass (symbol ++ "0")` and
`atomic_weight symbol` both return the same abundance-weighted sum of the
element's natural-isotope masses. -/
theorem element_zero_mass_consistent (base : List (List Char × ℚ)) (f : String → ℚ)
    (hmass : ∀ el ∈ ELEMENT_ZERO, ∀ kv ∈ isotopesL el.toList,
        lookupMass base (lowerStr kv.1.toList) = some (f kv.1))
    (hfpos : ∀ el ∈ ELEMENT_ZERO, ∀ kv ∈ isotopesL el.toList, 0 < f kv.1)
    (hab : ∀ el ∈ ELEMENT_ZERO, ∀ kv ∈ isotopesL el.toList, 0 < kv.2) :
    ∃ tbl, initAtomicMass base = some tbl ∧
      ∀ el ∈ ELEMENT_ZERO, ∃ w,
        atomic_mass tbl (el.toList ++ ['0']) = .ok w ∧
        atomic_weight tbl el.toList = .ok w := by
  have hC := addElementZero_eval base "C" f (hmass "C" (by decide))
  have hfZn : ∀ kv ∈ isotopesL "Zn".toList,
      lookupMass ((elementZeroKey "C", elementZeroVal f "C") :: base)
        (lowerStr kv.1.toList) = some (f kv.1) := by
    intro kv hkv
    rw [lookupMass_cons_ne _ _ _ _
      (element_zero_keys_disjoint "C" (by decide) "Zn" (by decide) kv hkv)]
    exact hmass "Zn" (by decide) kv hkv
  have hZn := addElementZero_eval _ "Zn" f hfZn
  have hfPt : ∀ kv ∈ isotopesL "Pt".toList,
      lookupMass ((elementZeroKey "Zn", elementZeroVal f "Zn") ::
        (elementZeroKey "C", elementZeroVal f "C") :: base)
        (lowerStr kv.1.toList) = some (f kv.1) := by
    intro kv hkv
    rw [lookupMass_cons_ne _ _ _ _
      (element_zero_keys_disjoint "Zn" (by decide) "Pt" (by decide) kv hkv),
      lookupMass_cons_ne _ _ _ _
      (element_zero_keys_disjoint "C" (by decide) "Pt" (by decide) kv hkv)]
    exact hmass "Pt" (by decide) kv hkv
  have hPt := addElementZero_eval _ "Pt" f hfPt
  have hfOs : ∀ kv ∈ isotopesL "Os".toList,
      lookupMass ((elementZeroKey "Pt", elementZeroVal f "Pt") ::
        (elementZeroKey "Zn", elementZeroVal f "Zn") ::
        (elementZeroKey "C", elementZeroVal f "C") :: base)
        (lowerStr kv.1.toList) = some (f kv.1) := by
    intro kv hkv
    rw [lookupMass_cons_ne _ _ _ _
      (element_zero_keys_disjoint "Pt" (by decide) "Os" (by decide) kv hkv),
      lookupMass_cons_ne _ _ _ _
      (element_zero_keys_disjoint "Zn" (by decide) "Os" (by decide) kv hkv),
      lookupMass_cons_ne _ _ _ _
      (element_zero_keys_disjoint "C" (by decide) "Os" (by decide) kv hkv)]
    exact hmass "Os" (by decide) kv hkv
  have hOs := addElementZero_eval _ "Os" f hfOs
  have hfTl : ∀ kv ∈ isotopesL "Tl".toList,
      lookupMass ((elementZeroKey "Os", elementZeroVal f "Os") ::
        (elementZeroKey "Pt", elementZeroVal f "Pt") ::
        (elementZeroKey "Zn", elementZeroVal f "Zn") ::
        (elementZeroKey "C", elementZeroVal f "C") :: base)
        (lowerStr kv.1.toList) = some (f kv.1) := by
    intro kv hkv
    rw [lookupMass_cons_ne _ _ _ _
      (element_zero_keys_disjoint "Os" (by decide) "Tl" (by decide) kv hkv),
      lookupMass_cons_ne _ _ _ _
      (element_zero_keys_disjoint "Pt" (by decide) "Tl" (by decide) kv hkv),
      lookupMass_cons_ne _ _ _ _
      (element_zero_keys_disjoint "Zn" (by decide) "Tl" (by decide) kv hkv),
      lookupMass_cons_ne _ _ _ _
      (element_zero_keys_disjoint "C" (by decide) "Tl" (by decide) kv hkv)]
    exact hmass "Tl" (by decide) kv hkv
  have hTl := addElementZero_eval _ "Tl" f hfTl
  refine ⟨(elementZeroKey "Tl", elementZeroVal f "Tl") ::
      (elementZeroKey "Os", elementZeroVal f "Os") ::
      (elementZeroKey "Pt", elementZeroVal f "Pt") ::
      (elementZeroKey "Zn", elementZeroVal f "Zn") ::
      (elementZeroKey "C", elementZeroVal f "C") :: base, ?_, ?_⟩
  · have e0 : initAtomicMass base =
        Option.bind (Option.bind (Option.bind (Option.bind (addElementZero base "C")
          (fun t => addElementZero t "Zn")) (fun t => addElementZero t "Pt"))
          (fun t => addElementZero t "Os")) (fun t => addElementZero t "Tl") := rfl
    rw [e0, hC, option_bind_some, hZn, option_bind_some, hPt, option_bind_some,
      hOs, option_bind_some, hTl]
  · have hiso5 : ∀ el ∈ ELEMENT_ZERO, ∀ kv ∈ isotopesL el.toList,
        lookupMass ((elementZeroKey "Tl", elementZeroVal f "Tl") ::
          (elementZeroKey "Os", elementZeroVal f "Os") ::
          (elementZeroKey "Pt", elementZeroVal f "Pt") ::
          (elementZeroKey "Zn", elementZeroVal f "Zn") ::
          (elementZeroKey "C", elementZeroVal f "C") :: base)
          (lowerStr kv.1.toList) = some (f kv.1) := by
      intro el hel kv hkv
      rw [lookupMass_cons_ne _ _ _ _
          (element_zero_keys_disjoint "Tl" (by decide) el hel kv hkv),
        lookupMass_cons_ne _ _ _ _
          (element_zero_keys_disjoint "Os" (by decide) el hel kv hkv),
        lookupMass_cons_ne _ _ _ _
          (element_zero_keys_disjoint "Pt" (by decide) el hel kv hkv),
        lookupMass_cons_ne _ _ _ _
          (element_zero_keys_disjoint "Zn" (by decide) el hel kv hkv),
        lookupMass_cons_ne _ _ _ _
          (element_zero_keys_disjoint "C" (by decide) el hel kv hkv)]
      exact hmass el hel kv hkv
    intro el hel
    simp only [ELEMENT_ZERO, List.mem_cons, List.not_mem_nil, or_false] at hel
    rcases hel with rfl | rfl | rfl | rfl | rfl
    · refine element_zero_case _ f "C" ?_ (hiso5 "C" (by decide)) (hfpos "C" (by decide))
        (hab "C" (by decide)) (element_zero_nonempty "C" (by decide))
        (element_zero_no_metastable "C" (by decide)) (by decide) (by decide) (by decide)
      rw [lookupMass_cons_ne _ _ _ _ (by decide), lookupMass_cons_ne _ _ _ _ (by decide),
        lookupMass_cons_ne _ _ _ _ (by decide), lookupMass_cons_ne _ _ _ _ (by decide)]
      exact lookupMass_cons_self _ _ _
    · refine element_zero_case _ f "Zn" ?_ (hiso5 "Zn" (by decide)) (hfpos "Zn" (by decide))
        (hab "Zn" (by decide)) (element_zero_nonempty "Zn" (by decide))
        (element_zero_no_metastable "Zn" (by decide)) (by decide) (by decide) (by decide)
      rw [lookupMass_cons_ne _ _ _ _ (by decide), lookupMass_cons_ne _ _ _ _ (by decide),
        lookupMass_cons_ne _ _ _ _ (by decide)]
      exact lookupMass_cons_self _ _ _
    · refine element_zero_case _ f "Pt" ?_ (hiso5 "Pt" (by decide)) (hfpos "Pt" (by decide))
        (hab "Pt" (by decide)) (element_zero_nonempty "Pt" (by decide))
        (element_zero_no_metastable "Pt" (by decide)) (by decide) (by decide) (by decide)
      rw [lookupMass_cons_ne _ _ _ _ (by decide), lookupMass_cons_ne _ _ _ _ (by decide)]
      exact lookupMass_cons_self _ _ _
    · refine element_zero_case _ f "Os" ?_ (hiso5 "Os" (by decide)) (hfpos "Os" (by decide))
        (hab "Os" (by decide)) (element_zero_nonempty "Os" (by decide))
        (element_zero_no_metastable "Os" (by decide)) (by decide) (by decide) (by decide)
      rw [lookupMass_cons_ne _ _ _ _ (by decide)]
      exact lookupMass_cons_self _ _ _
    · exact element_zero_case _ f "Tl" (lookupMass_cons_self _ _ _)
        (hiso5 "Tl" (by decide)) (hfpos "Tl" (by decide)) (hab "Tl" (by decide))
        (element_zero_nonempty "Tl" (by decide))
        (element_zero_no_metastable "Tl" (by decide)) (by decide) (by decide) (by decide)

/-- A concrete mass-file content for the C10 witness: every natural isotope
of the five lumped elements, with mass 1. -/
def testMassTable : List (List Char × ℚ) :=
  [("c12".toList, 1), ("c13".toList, 1),
   ("zn64".toList, 1), ("zn66".toList, 1), ("zn67".toList, 1), ("zn68".toList, 1),
   ("zn70".toList, 1),
   ("pt190".toList, 1), ("pt192".toList, 1), ("pt194".toList, 1), ("pt195".toList, 1),
   ("pt196".toList, 1), ("pt198".toList, 1),
   ("os184".toList, 1), ("os186".toList, 1), ("os187".toList, 1), ("os188".toList, 1),
   ("os189".toList, 1), ("os190".toList, 1), ("os192".toList, 1),
   ("tl203".toList, 1), ("tl205".toList, 1)]

set_option maxRecDepth 1000000 in
/-- Witness for C10 on `testMassTable` with all masses equal to 1. -/
theorem element_zero_mass_consistent_witness :
    ∃ tbl, initAtomicMass testMassTable = some tbl ∧
      ∀ el ∈ ELEMENT_ZERO, ∃ w,
        atomic_mass tbl (el.toList ++ ['0']) = .ok w ∧
        atomic_weight tbl el.toList = .ok w := by
  have hC : isotopesL "C".toList = [("C12", 0.9893), ("C13", 0.0107)] := rfl
  have hZn : isotopesL "Zn".toList =
      [("Zn64", 0.4917), ("Zn66", 0.2773), ("Zn67", 0.0404), ("Zn68", 0.1845),
       ("Zn70", 0.0061)] := rfl
  have hPt : isotopesL "Pt".toList =
      [("Pt190", 0.00012), ("Pt192", 0.00782), ("Pt194", 0.3286), ("Pt195", 0.3378),
       ("Pt196", 0.2521), ("Pt198", 0.07356)] := rfl
  have hOs : isotopesL "Os".toList =
      [("Os184", 0.0002), ("Os186", 0.0159), ("Os187", 0.0196), ("Os188", 0.1324),
       ("Os189", 0.1615), ("Os190", 0.2626), ("Os192", 0.4078)] := rfl
  have hTl : isotopesL "Tl".toList = [("Tl203", 0.2952), ("Tl205", 0.7048)] := rfl
  refine element_zero_mass_consistent testMassTable (fun _ => 1) ?_ ?_ ?_
  · intro el hel kv hkv
    simp only [ELEMENT_ZERO, List.mem_cons, List.not_mem_nil, or_false] at hel
    rcases hel with rfl | rfl | rfl | rfl | rfl
    · rw [hC] at hkv
      simp only [List.mem_cons, List.not_mem_nil, or_false] at hkv
      rcases hkv with rfl | rfl <;> rfl
    · rw [hZn] at hkv
      simp only [List.mem_cons, List.not_mem_nil, or_false] at hkv
      rcases hkv with rfl | rfl | rfl | rfl | rfl <;> rfl
    · rw [hPt] at hkv
      simp only [List.mem_cons, List.not_mem_nil, or_false] at hkv
      rcases hkv with rfl | rfl | rfl | rfl | rfl | rfl <;> rfl
    · rw [hOs] at hkv
      simp only [List.mem_cons, List.not_mem_nil, or_false] at hkv
      rcases hkv with rfl | rfl | rfl | rfl | rfl | rfl | rfl <;> rfl
    · rw [hTl] at hkv
      simp only [List.mem_cons, List.not_mem_nil, or_false] at hkv
      rcases hkv with rfl | rfl <;> rfl
  · intro el _ kv _
    norm_num
  · intro el hel kv hkv
    simp only [ELEMENT_ZERO, List.mem_cons, List.not_mem_nil, or_false] at hel
    rcases hel with rfl | rfl | rfl | rfl | rfl
    · rw [hC] at hkv
      simp only [List.mem_cons, List.not_mem_nil, or_false] at hkv
      rcases hkv with rfl | rfl <;> norm_num
    · rw [hZn] at hkv
      simp only [List.mem_cons, List.not_mem_nil, or_false] at hkv
      rcases hkv with rfl | rfl | rfl | rfl | rfl <;> norm_num
    · rw [hPt] at hkv
      simp only [List.mem_cons, List.not_mem_nil, or_false] at hkv
      rcases hkv with rfl | rfl | rfl | rfl | rfl | rfl <;> norm_num
    · rw [hOs] at hkv
      simp only [List.mem_cons, List.not_mem_nil, or_false] at hkv
      rcases hkv with rfl | rfl | rfl | rfl | rfl | rfl | rfl <;> norm_num
    · rw [hTl] at hkv
      simp only [List.mem_cons, List.not_mem_nil, or_false] at hkv
      rcases hkv with rfl | rfl <;> norm_num

/-! ## WaterEOS: `water_density`

Python floats become exact rationals; the values of `math.sqrt` and
`pressure**(0.25)` are oracle parameters `sqrtQ` / `qpow025`, so every
statement holds for any implementation of those primitives.  The routine is
modelled twice, sharing all numeric sub-definitions:

* `water_density` totalizes the arithmetic (ℚ division with `x / 0 = 0`, the
  oracle yielding a value for any argument); it is used only for conclusions
  robust to that totalization (the unreachability of `InvalidTemperature`).
* `water_density_checked` additionally models the abort points of the
  source's numeric core: `math.sqrt` raises `ValueError` on a negative
  argument (`mathDomainError`), and a float division by exactly zero — or a
  zero base raised to a negative exponent in the `gamma1_pi` loop — raises
  `ZeroDivisionError` (`zeroDivisionError`). -/

inductive WaterWarning where
  | pressureAbove100MPa
  | temperatureBelow273K
  | temperatureAbove623K
  | aboveSaturation
  deriving DecidableEq, Repr

inductive WaterError where
  | invalidPressure
  | invalidTemperature
  | mathDomainError
  | zeroDivisionError
  deriving DecidableEq, Repr

/-- The IAPWS region-4 parameters `n4` of data.py. -/
def n4 : List ℚ :=
  [0.11670521452767e4, -0.72421316703206e6, -0.17073846940092e2,
   0.12020824702470e5, -0.32325550322333e7, 0.14915108613530e2,
   -0.48232657361591e4, 0.40511340542057e6, -0.23855557567849,
   0.65017534844798e3]

/-- `E = beta**2 + n4[2]*beta + n4[5]` of the saturation computation. -/
def satE (beta : ℚ) : ℚ := beta ^ 2 + n4.getD 2 0 * beta + n4.getD 5 0

/-- `F = n4[0]*beta**2 + n4[3]*beta + n4[6]`. -/
def satF (beta : ℚ) : ℚ := n4.getD 0 0 * beta ^ 2 + n4.getD 3 0 * beta + n4.getD 6 0

/-- `G = n4[1]*beta**2 + n4[4]*beta + n4[7]`. -/
def satG (beta : ℚ) : ℚ := n4.getD 1 0 * beta ^ 2 + n4.getD 4 0 * beta + n4.getD 7 0

/-- The argument `F**2 - 4*E*G` of the first `math.sqrt` call. -/
def satDisc1 (beta : ℚ) : ℚ := satF beta ^ 2 - 4 * satE beta * satG beta

/-- `D = 2*G / (-F - sqrt(F**2 - 4*E*G))`. -/
def satD (sqrtQ : ℚ → ℚ) (beta : ℚ) : ℚ :=
  2 * satG beta / (-satF beta - sqrtQ (satDisc1 beta))

/-- The argument `(n4[9] + D)**2 - 4*(n4[8] + n4[9]*D)` of the second
`math.sqrt` call. -/
def satDisc2 (sqrtQ : ℚ → ℚ) (beta : ℚ) : ℚ :=
  (n4.getD 9 0 + satD sqrtQ beta) ^ 2
    - 4 * (n4.getD 8 0 + n4.getD 9 0 * satD sqrtQ beta)

/-- `T_sat = 0.5 * (n4[9] + D - sqrt((n4[9] + D)**2 - 4*(n4[8] + n4[9]*D)))`. -/
def satTval (sqrtQ : ℚ → ℚ) (beta : ℚ) : ℚ :=
  0.5 * (n4.getD 9 0 + satD sqrtQ beta - sqrtQ (satDisc2 sqrtQ beta))

/-- The saturation-temperature computation of `water_density` (the region-4
10-constant formula), with the arithmetic totalized. -/
def saturationTemperature (sqrtQ qpow025 : ℚ → ℚ) (pressure : ℚ) : ℚ :=
  satTval sqrtQ (qpow025 pressure)

/-- The saturation-temperature computation with the source's abort points:
`math.sqrt` raises on each negative argument, and the division producing `D`
raises on a zero denominator, in the source's evaluation order. -/
def saturationTemperatureChecked (sqrtQ qpow025 : ℚ → ℚ) (pressure : ℚ) :
    Except WaterError ℚ :=
  let beta := qpow025 pressure
  if satDisc1 beta < 0 then .error .mathDomainError
  else if -satF beta - sqrtQ (satDisc1 beta) = 0 then .error .zeroDivisionError
  else if satDisc2 sqrtQ beta < 0 then .error .mathDomainError
  else .ok (satTval sqrtQ beta)

/-- The IAPWS region-1 coefficients `n1f` of data.py. -/
def n1f : List ℚ :=
  [0.14632971213167, -0.84548187169114, -0.37563603672040e1,
   0.33855169168385e1, -0.95791963387872, 0.15772038513228,
   -0.16616417199501e-1, 0.81214629983568e-3, 0.28319080123804e-3,
   -0.60706301565874e-3, -0.18990068218419e-1, -0.32529748770505e-1,
   -0.21841717175414e-1, -0.52838357969930e-4, -0.47184321073267e-3,
   -0.30001780793026e-3, 0.47661393906987e-4, -0.44141845330846e-5,
   -0.72694996297594e-15, -0.31679644845054e-4, -0.28270797985312e-5,
   -0.85205128120103e-9, -0.22425281908000e-5, -0.65171222895601e-6,
   -0.14341729937924e-12, -0.40516996860117e-6, -0.12734301741641e-8,
   -0.17424871230634e-9, -0.68762131295531e-18, 0.14478307828521e-19,
   0.26335781662795e-22, -0.11947622640071e-22, 0.18228094581404e-23,
   -0.93537087292458e-25]

/-- The exponents `I1f` of data.py. -/
def I1f : List ℤ :=
  [0, 0, 0, 0, 0, 0, 0, 0, 1, 1, 1, 1, 1, 1, 2, 2, 2, 2, 2, 3, 3, 3, 4,
   4, 4, 5, 8, 8, 21, 23, 29, 30, 31, 32]

/-- The exponents `J1f` of data.py. -/
def J1f : List ℤ :=
  [-2, -1, 0, 1, 2, 3, 4, 5, -9, -7, -1, 0, 1, 3, -3, 0, 1, 3, 17, -4,
   0, 6, -5, -2, 10, -8, -11, -6, -29, -31, -38, -39, -40, -41]

/-- `gamma1_pi` accumulated over `zip(n1f, I1f, J1f)` in order, at
`pi = pressure / 16.53` and `tau = 1386 / temperature`. -/
def gamma1Pi (temperature pressure : ℚ) : ℚ :=
  let pi := pressure / 16.53
  let tau := 1386 / temperature
  (n1f.zip (I1f.zip J1f)).foldl
    (fun acc x =>
      acc - x.1 * (x.2.1 : ℚ) * (7.1 - pi) ^ (x.2.1 - 1) * (tau - 1.222) ^ x.2.2)
    0

/-- The region-1 density computation of `water_density` (independent of the
saturation check): `coeff / pi / gamma1_pi` with
`coeff = pressure / 0.461526 / temperature`, with the arithmetic totalized. -/
def region1Density (temperature pressure : ℚ) : ℚ :=
  let pi := pressure / 16.53
  let coeff := pressure / 0.461526 / temperature
  coeff / pi / gamma1Pi temperature pressure

/-- The region-1 computation with the source's abort points: `tau` divides by
the temperature; a zero base under a negative exponent in the `gamma1_pi`
loop raises (the loop contains negative exponents of both `7.1 - pi` and
`tau - 1.222`, starting with its first term); `coeff / pi` raises at zero
`pi`; and the final division raises when `gamma1_pi` is zero. -/
def region1DensityChecked (temperature pressure : ℚ) : Except WaterError ℚ :=
  if temperature = 0 then .error .zeroDivisionError
  else if 7.1 - pressure / 16.53 = 0 then .error .zeroDivisionError
  else if 1386 / temperature - 1.222 = 0 then .error .zeroDivisionError
  else if pressure / 16.53 = 0 then .error .zeroDivisionError
  else if gamma1Pi temperature pressure = 0 then .error .zeroDivisionError
  else .ok (region1Density temperature pressure)

/-- `water_density(temperature, pressure=0.1013)` of data.py: the two
domain-check `if/elif` chains (each `warn` collected, each `raise` fatal),
the saturation check, then the region-1 computation — numeric core
totalized (see the section comment). -/
def water_density (sqrtQ qpow025 : ℚ → ℚ) (temperature : ℚ)
    (pressure : ℚ := 0.1013) : Except WaterError (List WaterWarning × ℚ) := do
  let w1 : List WaterWarning ←
    if pressure > 100.0 then pure [.pressureAbove100MPa]
    else if pressure < 0.0 then Except.error .invalidPressure
    else pure []
  let w2 : List WaterWarning ←
    if temperature < 273 then pure [.temperatureBelow273K]
    else if temperature > 623.15 then pure [.temperatureAbove623K]
    else if temperature ≤ 0.0 then Except.error .invalidTemperature
    else pure []
  let tsat := saturationTemperature sqrtQ qpow025 pressure
  let w3 : List WaterWarning :=
    if temperature > tsat + 0.2 then [.aboveSaturation] else []
  return (w1 ++ w2 ++ w3, region1Density temperature pressure)

/-- `water_density` with the abort points of the source's numeric core
modelled (same guard chains, then the fallible saturation computation, the
saturation warning, and the fallible region-1 computation, in the source's
order). -/
def water_density_checked (sqrtQ qpow025 : ℚ → ℚ) (temperature : ℚ)
    (pressure : ℚ := 0.1013) : Except WaterError (List WaterWarning × ℚ) := do
  let w1 : List WaterWarning ←
    if pressure > 100.0 then pure [.pressureAbove100MPa]
    else if pressure < 0.0 then Except.error .invalidPressure
    else pure []
  let w2 : List WaterWarning ←
    if temperature < 273 then pure [.temperatureBelow273K]
    else if temperature > 623.15 then pure [.temperatureAbove623K]
    else if temperature ≤ 0.0 then Except.error .invalidTemperature
    else pure []
  let tsat ← saturationTemperatureChecked sqrtQ qpow025 pressure
  let w3 : List WaterWarning :=
    if temperature > tsat + 0.2 then [.aboveSaturation] else []
  let rho ← region1DensityChecked temperature pressure
  return (w1 ++ w2 ++ w3, rho)

theorem water_density_eval (sqrtQ qpow025 : ℚ → ℚ) (temperature pressure : ℚ)
    (hp : ¬ pressure < 0.0) :
    water_density sqrtQ qpow025 temperature pressure =
      .ok ((if pressure > 100.0 then [WaterWarning.pressureAbove100MPa] else []) ++
        (if temperature < 273 then [WaterWarning.temperatureBelow273K]
          else if temperature > 623.15 then [WaterWarning.temperatureAbove623K]
          else []) ++
        (if temperature > saturationTemperature sqrtQ qpow025 pressure + 0.2 then
          [WaterWarning.aboveSaturation] else []),
        region1Density temperature pressure) := by
  unfold water_density
  by_cases h1 : pressure > 100.0
  · by_cases h2 : temperature < 273
    · simp only [h1, h2, if_true, except_pure_bind]
      rfl
    · by_cases h3 : temperature > 623.15
      · simp only [h1, h2, h3, if_true, if_false, except_pure_bind]
        rfl
      · have hT0 : ¬ temperature ≤ 0.0 := by
          rw [show (0.0 : ℚ) = 0 from by norm_num]
          rw [not_lt] at h2
          intro h
          have : (273 : ℚ) ≤ 0 := le_trans h2 h
          norm_num at this
        simp only [h1, h2, h3, hT0, if_true, if_false, except_pure_bind]
        rfl
  · by_cases h2 : temperature < 273
    · simp only [h1, hp, h2, if_true, if_false, except_pure_bind]
      rfl
    · by_cases h3 : temperature > 623.15
      · simp only [h1, hp, h2, h3, if_true, if_false, except_pure_bind]
        rfl
      · have hT0 : ¬ temperature ≤ 0.0 := by
          rw [show (0.0 : ℚ) = 0 from by norm_num]
          rw [not_lt] at h2
          intro h
          have : (273 : ℚ) ≤ 0 := le_trans h2 h
          norm_num at this
        simp only [h1, hp, h2, h3, hT0, if_true, if_false, except_pure_bind]
        rfl

theorem water_density_negative_pressure (sqrtQ qpow025 : ℚ → ℚ)
    (temperature pressure : ℚ) (h1 : ¬ pressure > 100.0) (h2 : pressure < 0.0) :
    water_density sqrtQ qpow025 temperature pressure = .error .invalidPressure := by
  unfold water_density
  simp only [h1, h2, if_true, if_false, except_pure_bind]
  rfl

/-- **C5 counterexample** — at pressure 10⁻¹² MPa (a valid, nonzero pressure
whose exact quarter power is β = 10⁻³) and temperature 300 K, the argument
`F² − 4EG` of the first `math.sqrt` of the saturation computation is
negative (≈ −800831.6), so the source call aborts with a `ValueError` inside
the saturation computation, before any region-1 work — refuting the claim's
"the call does not abort, it raises only a non-fatal warning" for every
pressure ≥ 0. -/
theorem water_density_saturation_abort_counterexample :
    (0 : ℚ) ≤ 1e-12 ∧ (1e-12 : ℚ) ≠ 0 ∧ (300 : ℚ) ≠ 0 ∧
    satDisc1 1e-3 < 0 ∧
    water_density_checked id (fun _ => 1e-3) 300 1e-12 =
      .error .mathDomainError := by
  have hn2 : n4.getD 2 0 = -0.17073846940092e2 := rfl
  have hn5 : n4.getD 5 0 = 0.14915108613530e2 := rfl
  have hn0 : n4.getD 0 0 = 0.11670521452767e4 := rfl
  have hn3 : n4.getD 3 0 = 0.12020824702470e5 := rfl
  have hn6 : n4.getD 6 0 = -0.48232657361591e4 := rfl
  have hn1 : n4.getD 1 0 = -0.72421316703206e6 := rfl
  have hn4 : n4.getD 4 0 = -0.32325550322333e7 := rfl
  have hn7 : n4.getD 7 0 = 0.40511340542057e6 := rfl
  have hneg : satDisc1 (1e-3 : ℚ) < 0 := by
    unfold satDisc1 satE satF satG
    rw [hn2, hn5, hn0, hn3, hn6, hn1, hn4, hn7]
    norm_num
  refine ⟨by norm_num, by norm_num, by norm_num, hneg, ?_⟩
  have hsat : saturationTemperatureChecked id (fun _ => (1e-3 : ℚ)) 1e-12 =
      .error .mathDomainError := by
    simp only [saturationTemperatureChecked]
    rw [if_pos hneg]
  unfold water_density_checked
  have g1 : ¬ (1e-12 : ℚ) > 100.0 := by norm_num
  have g2 : ¬ (1e-12 : ℚ) < 0.0 := by norm_num
  have g3 : ¬ (300 : ℚ) < 273 := by norm_num
  have g4 : ¬ (300 : ℚ) > 623.15 := by norm_num
  have g5 : ¬ (300 : ℚ) ≤ 0.0 := by norm_num
  simp only [g1, g2, g3, g4, g5, if_false, except_pure_bind, hsat]
  rfl

/-- **C5 (amended)** — whenever the saturation computation is defined (both
square-root arguments nonnegative — this genuinely fails for pressures near
zero, where `math.sqrt` aborts the call — and the `D` denominator nonzero)
and the region-1 arithmetic is defined (nonzero temperature, pressure, power
bases and `gamma1_pi`), `water_density` computes the saturation temperature
with the region-4 10-constant formula, compares the request against
`T_sat + 0.2` and at most appends a non-fatal warning: the call returns
`.ok`, and the returned density is exactly the region-1 value
`region1Density`, which does not depend on the saturation check. -/
theorem water_density_checked_saturation_only_warns (sqrtQ qpow025 : ℚ → ℚ)
    (temperature pressure : ℚ) (hp : 0 ≤ pressure)
    (hd1 : 0 ≤ satDisc1 (qpow025 pressure))
    (hden : -satF (qpow025 pressure) - sqrtQ (satDisc1 (qpow025 pressure)) ≠ 0)
    (hd2 : 0 ≤ satDisc2 sqrtQ (qpow025 pressure))
    (hT : temperature ≠ 0) (hP : pressure ≠ 0)
    (hb1 : 7.1 - pressure / 16.53 ≠ 0)
    (hb2 : 1386 / temperature - 1.222 ≠ 0)
    (hg : gamma1Pi temperature pressure ≠ 0) :
    water_density_checked sqrtQ qpow025 temperature pressure =
      .ok ((if pressure > 100.0 then [WaterWarning.pressureAbove100MPa] else []) ++
        (if temperature < 273 then [WaterWarning.temperatureBelow273K]
          else if temperature > 623.15 then [WaterWarning.temperatureAbove623K]
          else []) ++
        (if temperature > satTval sqrtQ (qpow025 pressure) + 0.2 then
          [WaterWarning.aboveSaturation] else []),
        region1Density temperature pressure) := by
  have hsat : saturationTemperatureChecked sqrtQ qpow025 pressure =
      .ok (satTval sqrtQ (qpow025 pressure)) := by
    simp only [saturationTemperatureChecked]
    rw [if_neg (not_lt.mpr hd1), if_neg hden, if_neg (not_lt.mpr hd2)]
  have hpi : ¬ pressure / 16.53 = 0 := by
    intro h
    rw [div_eq_zero_iff] at h
    rcases h with h | h
    · exact hP h
    · norm_num at h
  have hrho : region1DensityChecked temperature pressure =
      .ok (region1Density temperature pressure) := by
    unfold region1DensityChecked
    rw [if_neg hT, if_neg hb1, if_neg hb2, if_neg hpi, if_neg hg]
  have hpz : ¬ pressure < 0.0 := by
    rw [show (0.0 : ℚ) = 0 from by norm_num]
    exact not_lt.mpr hp
  unfold water_density_checked
  by_cases h1 : pressure > 100.0
  · by_cases h2 : temperature < 273
    · simp only [h1, h2, if_true, except_pure_bind, hsat, except_bind_ok, hrho]
      rfl
    · by_cases h3 : temperature > 623.15
      · simp only [h1, h2, h3, if_true, if_false, except_pure_bind, hsat,
          except_bind_ok, hrho]
        rfl
      · have hT0 : ¬ temperature ≤ 0.0 := by
          rw [show (0.0 : ℚ) = 0 from by norm_num]
          rw [not_lt] at h2
          intro h
          have : (273 : ℚ) ≤ 0 := le_trans h2 h
          norm_num at this
        simp only [h1, h2, h3, hT0, if_true, if_false, except_pure_bind, hsat,
          except_bind_ok, hrho]
        rfl
  · by_cases h2 : temperature < 273
    · simp only [h1, hpz, h2, if_true, if_false, except_pure_bind, hsat,
        except_bind_ok, hrho]
      rfl
    · by_cases h3 : temperature > 623.15
      · simp only [h1, hpz, h2, h3, if_true, if_false, except_pure_bind, hsat,
          except_bind_ok, hrho]
        rfl
      · have hT0 : ¬ temperature ≤ 0.0 := by
          rw [show (0.0 : ℚ) = 0 from by norm_num]
          rw [not_lt] at h2
          intro h
          have : (273 : ℚ) ≤ 0 := le_trans h2 h
          norm_num at this
        simp only [h1, hpz, h2, h3, hT0, if_true, if_false, except_pure_bind, hsat,
          except_bind_ok, hrho]
        rfl

/-- Witness for the amended C5 theorem at temperature 63000/101 K (chosen so
that `tau - 1.222 = 1`) and pressure 100.833 MPa (so that `7.1 - pi = 1`),
with `beta = 2`: every definedness hypothesis is discharged by exact
rational arithmetic. -/
theorem water_density_checked_saturation_only_warns_witness :
    water_density_checked id (fun _ => 2) (63000 / 101) 100.833 =
      .ok ((if (100.833 : ℚ) > 100.0 then [WaterWarning.pressureAbove100MPa]
            else []) ++
        (if (63000 / 101 : ℚ) < 273 then [WaterWarning.temperatureBelow273K]
          else if (63000 / 101 : ℚ) > 623.15 then
            [WaterWarning.temperatureAbove623K]
          else []) ++
        (if (63000 / 101 : ℚ) > satTval id 2 + 0.2 then
          [WaterWarning.aboveSaturation] else []),
        region1Density (63000 / 101) 100.833) := by
  have hn2 : n4.getD 2 0 = -0.17073846940092e2 := rfl
  have hn5 : n4.getD 5 0 = 0.14915108613530e2 := rfl
  have hn0 : n4.getD 0 0 = 0.11670521452767e4 := rfl
  have hn3 : n4.getD 3 0 = 0.12020824702470e5 := rfl
  have hn6 : n4.getD 6 0 = -0.48232657361591e4 := rfl
  have hn1 : n4.getD 1 0 = -0.72421316703206e6 := rfl
  have hn4 : n4.getD 4 0 = -0.32325550322333e7 := rfl
  have hn7 : n4.getD 7 0 = 0.40511340542057e6 := rfl
  have hn8 : n4.getD 8 0 = -0.23855557567849 := rfl
  have hn9 : n4.getD 9 0 = 0.65017534844798e3 := rfl
  have hd1 : 0 ≤ satDisc1 (2 : ℚ) := by
    unfold satDisc1 satE satF satG
    rw [hn2, hn5, hn0, hn3, hn6, hn1, hn4, hn7]
    norm_num
  have hden : -satF (2 : ℚ) - id (satDisc1 (2 : ℚ)) ≠ 0 := by
    unfold satDisc1 satE satF satG
    rw [hn2, hn5, hn0, hn3, hn6, hn1, hn4, hn7]
    norm_num
  have hd2 : 0 ≤ satDisc2 id (2 : ℚ) := by
    unfold satDisc2 satD satDisc1 satE satF satG
    rw [hn2, hn5, hn0, hn3, hn6, hn1, hn4, hn7, hn8, hn9]
    norm_num
  have hg : gamma1Pi (63000 / 101) 100.833 ≠ 0 := by
    simp only [gamma1Pi, n1f, I1f, J1f]
    norm_num [List.zip_cons_cons, List.foldl_cons, List.foldl_nil, one_zpow]
  exact water_density_checked_saturation_only_warns id (fun _ => 2)
    (63000 / 101) 100.833 (by norm_num) hd1 hden hd2 (by norm_num) (by norm_num)
    (by norm_num) (by norm_num) hg

/-- **C2** (code bug) — The `temperature <= 0` fatal check of
`water_density` is unreachable: it sits in an `elif` behind
`temperature < 273`, which any non-positive temperature already satisfies,
so `InvalidTemperature` can never be raised; at the failing input
(−5 K, 0.1013 MPa) the call returns `.ok` with (only) the below-273 boundary
warning instead of failing as the spec requires. -/
theorem water_density_invalid_temperature_unreachable :
    (∀ (sqrtQ qpow025 : ℚ → ℚ) (temperature pressure : ℚ),
        water_density sqrtQ qpow025 temperature pressure ≠
          .error .invalidTemperature) ∧
    (∃ p, water_density id id (-5) 0.1013 = .ok p ∧
        WaterWarning.temperatureBelow273K ∈ p.1) := by
  constructor
  · intro sqrtQ qpow025 temperature pressure h
    by_cases hneg : pressure < 0.0
    · by_cases h1 : pressure > 100.0
      · rw [water_density_eval sqrtQ qpow025 temperature pressure
          (by rw [show (0.0 : ℚ) = 0 from by norm_num] at hneg ⊢; linarith)] at h
        exact Except.noConfusion h
      · rw [water_density_negative_pressure sqrtQ qpow025 temperature pressure h1 hneg] at h
        exact WaterError.noConfusion (Except.error.inj h)
    · rw [water_density_eval sqrtQ qpow025 temperature pressure hneg] at h
      exact Except.noConfusion h
  · have h := water_density_eval id id (-5) 0.1013 (by norm_num)
    rw [if_neg (by norm_num), if_pos (by norm_num)] at h
    exact ⟨_, h, by simp⟩

/-- Witness instantiating the universally quantified part of the C2 theorem. -/
theorem water_density_invalid_temperature_unreachable_witness :
    water_density id id 300 1 ≠ .error .invalidTemperature :=
  water_density_invalid_temperature_unreachable.1 id id 300 1

end OpenMCData
